import Mathlib

/-!
# Verification of the `hfp` bot-detection server (`src/server.js`)

This development shallowly embeds the server's pure logic in Lean:

* the Header Evaluator `analyzeHeadersOnly`,
* the Signal Evaluator `analyzeBotSignals`,
* the challenge store (`/api/challenge` issue and `/api/challenge/verify`),
* the per-IP visit tracker (`trackPageVisit`, `markBotApiCalled`,
  `markVisitComplete`, the deadline timer callback, `getVisitVerdict`),
* the `/api/bot` handler with its early-reject path.

JavaScript idioms are translated explicitly: optional chaining becomes
`Option.bind`, `x || d` on strings/numbers becomes `getD` (with `""`/`0`
falsy), `a ?? b` becomes an `Option` chain, `=== v` becomes `== some v`,
and template interpolation of `undefined`/`null` renders the literal words
`undefined`/`null`.  Machine numbers are modelled as `Int` (all values the
rules compare are integers in range; `devicePixelRatio` and `math.acos`,
which can be fractional, are modelled as `Rat`).
-/

namespace Hfp

/-- A signal produced by either evaluator (`addSignal` in the source).
`category` is `none` for the Header Evaluator, whose `addSignal` takes no
category argument; the Signal Evaluator always supplies one
(defaulting to `"general"`). -/
structure Signal where
  name : String
  detected : Bool
  weight : Nat
  reason : String
  category : Option String
  deriving DecidableEq

/-- `summary` block of a verdict. -/
structure Summary where
  totalChecks : Nat
  flagged : Nat
  passed : Nat
  deriving DecidableEq

/-- The verdict object returned by the evaluators and endpoints.
`reason`, `code` and `signalsByCategory` are `none` for responses that do
not carry those JSON keys. -/
structure Verdict where
  verdict : String
  score : Nat
  maxScore : Nat
  confidence : String
  reason : Option String := none
  code : Option Nat := none
  signals : List Signal
  allSignals : List Signal
  signalsByCategory : Option (List (String × List Signal)) := none
  summary : Summary
  deriving DecidableEq

/-! ## JavaScript-semantics helpers -/

/-- `o || ''` for an optional string: absent headers/fields read as `""`. -/
def jstr (o : Option String) : String := o.getD ""

/-- JS truthiness of an optional string (`undefined` and `""` are falsy). -/
def struthy (o : Option String) : Bool := jstr o ≠ ""

/-- JS truthiness of an optional boolean (`o` is truthy iff it is `true`). -/
def btruthy (o : Option Bool) : Bool := o == some true

/-- JS truthiness of an optional number (`undefined` and `0` are falsy). -/
def ntruthy (o : Option Int) : Bool :=
  match o with
  | some v => v != 0
  | none => false

/-- JS `o > k` where `o` may be `undefined` (`undefined > k` is `false`). -/
def optGt (o : Option Int) (k : Int) : Bool :=
  match o with
  | some v => k < v
  | none => false

/-- JS `s.toLowerCase()` (ASCII case folding, which covers every string the
server lowercases). -/
def jsToLower (s : String) : String := ⟨s.data.map Char.toLower⟩

/-- JS `s.substring(0, n)` / the initial segment of length `n`. -/
def jsTake (s : String) (n : Nat) : String := ⟨s.data.take n⟩

/-- JS `s.length` (code points; identical to UTF-16 units on the ASCII
header values the server measures). -/
def jsLen (s : String) : Nat := s.data.length

/-- The segment of `s` before the first occurrence of `c`:
JS `s.split(c)[0]`. -/
def firstSeg (c : Char) (s : String) : String := ⟨s.data.takeWhile (fun ch => ch != c)⟩

/-- Does the second character list start with the first? -/
def leadsWith : List Char → List Char → Bool
  | [], _ => true
  | _ :: _, [] => false
  | n :: ns, h :: hs => n == h && leadsWith ns hs

/-- Does the second character list contain the first as a contiguous run? -/
def hasSub (needle : List Char) : List Char → Bool
  | [] => needle.isEmpty
  | h :: t => leadsWith needle (h :: t) || hasSub needle t

/-- JS `haystack.includes(needle)` (substring containment). -/
def jsIncludes (haystack needle : String) : Bool :=
  hasSub needle.data haystack.data

/-- Template interpolation of a possibly-`undefined` number. -/
def showOptInt (o : Option Int) : String :=
  match o with
  | some v => toString v
  | none => "undefined"

/-- Template interpolation of a possibly-`null` number (`let x = null`). -/
def showNullInt (o : Option Int) : String :=
  match o with
  | some v => toString v
  | none => "null"

/-- Template interpolation of a possibly-`undefined` string. -/
def showOptStr (o : Option String) : String :=
  match o with
  | some s => s
  | none => "undefined"

/-- Template interpolation of a possibly-`undefined` rational field. -/
def showOptRat (o : Option Rat) : String :=
  match o with
  | some v => toString v
  | none => "undefined"

/-! ## The signal accumulator

Both evaluators build their result with a local `addSignal` helper that
pushes a signal record and adds the weight to a running `score` when the
signal is detected.  A rule application records the data of one
`addSignal` call; the evaluator folds `addSignal` over the rule
applications in source order. -/

/-- The arguments of one `addSignal(name, detected, weight, passReason,
failReason, category)` call. -/
structure RuleApp where
  name : String
  detected : Bool
  weight : Nat
  passReason : String
  failReason : String
  category : Option String
  deriving DecidableEq

/-- The signal record pushed by `addSignal` for a rule application. -/
def toSignal (r : RuleApp) : Signal :=
  if r.detected then
    { name := r.name, detected := true, weight := r.weight,
      reason := r.failReason, category := r.category }
  else
    { name := r.name, detected := false, weight := r.weight,
      reason := r.passReason, category := r.category }

/-- One `addSignal` call: push the signal and, when detected, add its
weight to the running score. -/
def addSignal (st : List Signal × Nat) (r : RuleApp) : List Signal × Nat :=
  (st.1 ++ [toSignal r], if r.detected then st.2 + r.weight else st.2)

/-- Sum of the weights of the detected signals in a list. -/
def sumDetectedWeights (l : List Signal) : Nat :=
  ((l.filter (fun s => s.detected)).map (fun s => s.weight)).sum

/-- The final-assembly block (`Calculate verdict` in the source), written
once here although the source inlines the identical block in both
evaluators: normalise the accumulated score to `min(score, 100)`, derive
verdict and confidence from the fixed thresholds, and split the signals.
`byCategory` is the `signalsByCategory` value (only `analyzeBotSignals`
produces that key). -/
def assembleVerdict (st : List Signal × Nat)
    (byCategory : Option (List (String × List Signal))) : Verdict :=
  let signals := st.1
  let score := st.2
  let maxScore := 100
  let normalizedScore := min score maxScore
  { verdict :=
      if normalizedScore ≥ 50 then "bot"
      else if normalizedScore ≥ 25 then "suspicious"
      else "human",
    score := normalizedScore,
    maxScore := maxScore,
    confidence :=
      if normalizedScore ≥ 50 then "high"
      else if normalizedScore ≥ 25 then "medium"
      else "low",
    signals := signals.filter (fun s => s.detected),
    allSignals := signals,
    signalsByCategory := byCategory,
    summary :=
      { totalChecks := signals.length,
        flagged := (signals.filter (fun s => s.detected)).length,
        passed := (signals.filter (fun s => !s.detected)).length } }

/-! ## Request headers

Only the header keys the server reads are modelled; a `none` field is an
absent header.  JS reads them lowercased from `req.headers`. -/

structure Headers where
  userAgent : Option String := none
  accept : Option String := none
  acceptLanguage : Option String := none
  acceptEncoding : Option String := none
  secFetchDest : Option String := none
  secFetchMode : Option String := none
  secFetchSite : Option String := none
  secChUa : Option String := none
  connection : Option String := none
  upgradeInsecureRequests : Option String := none
  cacheControl : Option String := none
  deriving DecidableEq

/-- The fixed bot-pattern list of `analyzeHeadersOnly` (56 entries). -/
def headerBotPatterns : List String :=
  ["python", "curl", "wget", "axios", "node-fetch", "go-http", "java/",
   "libwww", "httpunit", "nutch", "phpcrawl", "msnbot", "jyxobot",
   "fast-webcrawler", "biglotron", "teoma", "convera", "gigablast",
   "ia_archiver", "webmon", "httrack", "grub.org", "netresearchserver",
   "speedy", "fluffy", "findlink", "panscient", "ips-agent", "yanga",
   "cyberpatrol", "postrank", "page2rss", "linkdex", "ezooms", "heritrix",
   "findthatfile", "europarchive.org", "mappydata", "eright", "apercite",
   "scrapy", "mechanize", "phantom", "casper", "selenium", "webdriver",
   "chrome-lighthouse", "pingdom", "phantomjs", "headlesschrome",
   "httpie", "postman", "insomnia", "rest-client", "okhttp", "apache-http"]

/-- The rule applications of the Header Evaluator, in source order. -/
def headerRuleApps (headers : Headers) : List RuleApp :=
  let userAgent := jstr headers.userAgent
  let userAgentLower := jsToLower userAgent
  let matchedBotPattern := headerBotPatterns.find? (fun p => jsIncludes userAgentLower p)
  let accept := jstr headers.accept
  let nonBrowserAccept :=
    accept ≠ "" && !(jsIncludes accept "text/html") && !(jsIncludes accept "*/*")
  let hasSecFetch :=
    struthy headers.secFetchDest || struthy headers.secFetchMode ||
      struthy headers.secFetchSite
  [{ name := "noUserAgent", detected := userAgent == "", weight := 30,
     passReason := "User-Agent header present",
     failReason := "No User-Agent header (very suspicious)", category := none },
   { name := "shortUserAgent",
     detected := decide (0 < jsLen userAgent) && decide (jsLen userAgent < 20), weight := 15,
     passReason := "User-Agent length: " ++ toString (jsLen userAgent) ++ " chars",
     failReason := "User-Agent too short: " ++ toString (jsLen userAgent) ++ " chars",
     category := none },
   { name := "botUserAgent", detected := matchedBotPattern.isSome, weight := 30,
     passReason := "User-Agent appears legitimate",
     failReason := "Bot-like User-Agent pattern: " ++ showOptStr matchedBotPattern,
     category := none },
   { name := "headlessUA", detected := jsIncludes userAgentLower "headless", weight := 25,
     passReason := "No headless indicator in User-Agent",
     failReason := "Headless mentioned in User-Agent", category := none },
   { name := "noAcceptHeader", detected := !struthy headers.accept, weight := 10,
     passReason := "Accept header present",
     failReason := "Accept header missing", category := none },
   { name := "nonBrowserAccept", detected := nonBrowserAccept, weight := 10,
     passReason := "Accept header looks like browser",
     failReason := "Non-browser Accept header: " ++ jsTake accept 50, category := none },
   { name := "noAcceptLanguage", detected := !struthy headers.acceptLanguage, weight := 15,
     passReason := "Accept-Language header present",
     failReason := "Accept-Language header missing", category := none },
   { name := "noAcceptEncoding", detected := !struthy headers.acceptEncoding, weight := 10,
     passReason := "Accept-Encoding header present",
     failReason := "Accept-Encoding header missing", category := none },
   { name := "noSecFetch", detected := !hasSecFetch, weight := 15,
     passReason := "Sec-Fetch headers present",
     failReason := "Sec-Fetch headers missing (not a modern browser)", category := none },
   { name := "noSecChUa", detected := !struthy headers.secChUa, weight := 8,
     passReason := "Sec-CH-UA header present",
     failReason := "Sec-CH-UA header missing", category := none },
   { name := "noConnection", detected := !struthy headers.connection, weight := 5,
     passReason := "Connection header present",
     failReason := "Connection header missing", category := none },
   { name := "noUpgradeInsecure", detected := !struthy headers.upgradeInsecureRequests,
     weight := 5,
     passReason := "Upgrade-Insecure-Requests header present",
     failReason := "Upgrade-Insecure-Requests header missing", category := none }]

/-- Header-only bot analysis (`analyzeHeadersOnly` in the source).  Its
response has no `signalsByCategory` key. -/
def analyzeHeadersOnly (headers : Headers) : Verdict :=
  assembleVerdict ((headerRuleApps headers).foldl addSignal ([], 0)) none

/-! ## The browser bundle

Typed model of the JSON evidence bundle POSTed to `/api/bot`.  Every field
the Signal Evaluator reads is present as an `Option`; `none` is an absent
(or `null`) key.  Numeric fields are `Int` except `devicePixelRatio` and
`math.acos`, which can be fractional and are `Rat`. -/

structure ScreenData where
  width : Option Int := none
  height : Option Int := none
  colorDepth : Option Int := none
  dpr : Option Rat := none  -- devicePixelRatio in the source JSON
  deriving DecidableEq

structure WindowData where
  innerWidth : Option Int := none
  innerHeight : Option Int := none
  outerWidth : Option Int := none
  outerHeight : Option Int := none
  deriving DecidableEq

structure NavigatorData where
  userAgent : Option String := none
  language : Option String := none
  languages : Option (List String) := none
  platform : Option String := none
  vendor : Option String := none
  product : Option String := none
  appName : Option String := none
  webdriver : Option Bool := none
  deriving DecidableEq

structure UserAgentDataBlock where
  platform : Option String := none
  deriving DecidableEq

structure TimezoneData where
  timezone : Option String := none
  offset : Option Int := none
  deriving DecidableEq

structure PerformanceData where
  navigationStart : Option Int := none
  loadEventEnd : Option Int := none
  jsHeapSizeLimit : Option Int := none
  deriving DecidableEq

structure WebglData where
  unmaskedRenderer : Option String := none
  renderer : Option String := none
  unmaskedVendor : Option String := none
  vendor : Option String := none
  extensions : Option (List String) := none
  error : Option String := none
  deriving DecidableEq

structure Webgl2Data where
  error : Option String := none
  deriving DecidableEq

structure CanvasData where
  hash : Option String := none
  error : Option String := none
  deriving DecidableEq

structure AudioData where
  error : Option String := none
  deriving DecidableEq

structure BatteryData where
  error : Option String := none
  deriving DecidableEq

structure MediaDevicesData where
  audioinput : Option Int := none
  audiooutput : Option Int := none
  videoinput : Option Int := none
  error : Option String := none
  deriving DecidableEq

structure SpeechVoicesData where
  count : Option Int := none
  deriving DecidableEq

structure TouchData where
  maxTouchPoints : Option Int := none
  touchEvent : Option Bool := none
  deriving DecidableEq

structure GamepadsData where
  supported : Option Bool := none
  deriving DecidableEq

structure KeyboardData where
  error : Option String := none
  deriving DecidableEq

structure DocumentData where
  hidden : Option Bool := none
  deriving DecidableEq

structure MathData where
  acos : Option Rat := none
  deriving DecidableEq

structure FeaturesData where
  webdriver : Option Bool := none
  phantom : Option Bool := none
  nightmare : Option Bool := none
  selenium : Option Bool := none
  domAutomation : Option Bool := none
  windowChrome : Option Bool := none
  permissionsQuery : Option Bool := none
  pluginsLength : Option Int := none
  notifications : Option Bool := none
  webRTC : Option Bool := none
  indexedDB : Option Bool := none
  localStorage : Option Bool := none
  sessionStorage : Option Bool := none
  serviceWorker : Option Bool := none
  webAssembly : Option Bool := none
  bluetooth : Option Bool := none
  usb : Option Bool := none
  credentials : Option Bool := none
  deriving DecidableEq

structure JsChallengeData where
  valid : Option Bool := none
  solveTime : Option Int := none
  reason : Option String := none
  deriving DecidableEq

structure Bundle where
  screen : Option ScreenData := none
  window : Option WindowData := none
  navigator : Option NavigatorData := none
  userAgentData : Option UserAgentDataBlock := none
  timezone : Option TimezoneData := none
  performance : Option PerformanceData := none
  webgl : Option WebglData := none
  webgl2 : Option Webgl2Data := none
  canvas : Option CanvasData := none
  audio : Option AudioData := none
  battery : Option BatteryData := none
  mediaDevices : Option MediaDevicesData := none
  speechVoices : Option SpeechVoicesData := none
  plugins : Option (List String) := none
  fonts : Option (List String) := none
  touch : Option TouchData := none
  gamepads : Option GamepadsData := none
  keyboard : Option KeyboardData := none
  document : Option DocumentData := none
  math : Option MathData := none
  connection : Option Unit := none
  features : Option FeaturesData := none
  jsChallenge : Option JsChallengeData := none
  deriving DecidableEq

/-- The bot-pattern list of `analyzeBotSignals` (50 entries).  Unlike the
Header Evaluator list it stops at `headlesschrome`: it has no `httpie`,
`postman`, `insomnia`, `rest-client`, `okhttp` or `apache-http`. -/
def sigBotPatterns : List String :=
  ["python", "curl", "wget", "axios", "node-fetch", "go-http", "java/",
   "libwww", "httpunit", "nutch", "phpcrawl", "msnbot", "jyxobot",
   "fast-webcrawler", "biglotron", "teoma", "convera", "gigablast",
   "ia_archiver", "webmon", "httrack", "grub.org", "netresearchserver",
   "speedy", "fluffy", "findlink", "panscient", "ips-agent", "yanga",
   "cyberpatrol", "postrank", "page2rss", "linkdex", "ezooms", "heritrix",
   "findthatfile", "europarchive.org", "mappydata", "eright", "apercite",
   "scrapy", "mechanize", "phantom", "casper", "selenium", "webdriver",
   "chrome-lighthouse", "pingdom", "phantomjs", "headlesschrome"]

/-- `Math.acos(0.5)` as the source's decimal literal. -/
def expectedAcos : Rat := (10471975511965979 : Rat) / 10000000000000000

/-! The Signal Evaluator extracts common values at the top of
`analyzeBotSignals`; these are the corresponding helper definitions.  The
rule list itself is split into one definition per commented section of the
source, concatenated in source order by `sigRuleApps`. -/

/-- `browserData?.navigator?.userAgent || ''`. -/
def bundleUA (bd : Bundle) : String := jstr (bd.navigator.bind NavigatorData.userAgent)

/-- `userAgent.includes('Chrome')`. -/
def sigIsChrome (bd : Bundle) : Bool := jsIncludes (bundleUA bd) "Chrome"

/-- `userAgent.includes('Safari') && !isChrome`. -/
def sigIsSafari (bd : Bundle) : Bool := jsIncludes (bundleUA bd) "Safari" && !sigIsChrome bd

/-- `/mobile|android|iphone|ipad/i.test(userAgent)`. -/
def sigIsMobileUA (bd : Bundle) : Bool :=
  let uaLower := jsToLower (bundleUA bd)
  jsIncludes uaLower "mobile" || jsIncludes uaLower "android" ||
    jsIncludes uaLower "iphone" || jsIncludes uaLower "ipad"

/-- `!browserData?.screen && !browserData?.window && !browserData?.navigator`. -/
def sigNoBrowserData (bd : Bundle) : Bool :=
  bd.screen.isNone && bd.window.isNone && bd.navigator.isNone

/-- `browserData?.jsChallenge?.valid === true`. -/
def sigJsChallengeValid (bd : Bundle) : Bool :=
  (bd.jsChallenge.bind JsChallengeData.valid) == some true

/-- `browserData?.mediaDevices && !browserData?.mediaDevices?.error`. -/
def sigHasMediaDevices (bd : Bundle) : Bool :=
  bd.mediaDevices.isSome && !struthy (bd.mediaDevices.bind MediaDevicesData.error)

/-- CRITICAL SIGNALS: the automation-framework and JS-challenge rules. -/
def sigAutomationRules (bd : Bundle) : List RuleApp :=
  let webdriverDetected :=
    (bd.navigator.bind NavigatorData.webdriver) == some true ||
      (bd.features.bind FeaturesData.webdriver) == some true
  let jsChallenge := bd.jsChallenge
  let jscSolve := jsChallenge.bind JsChallengeData.solveTime
  [{ name := "webdriver", detected := webdriverDetected, weight := 30,
     passReason := "navigator.webdriver is false",
     failReason := "navigator.webdriver is true (automation detected)",
     category := some "automation" },
   { name := "phantom", detected := btruthy (bd.features.bind FeaturesData.phantom),
     weight := 30, passReason := "PhantomJS not detected",
     failReason := "PhantomJS detected", category := some "automation" },
   { name := "nightmare", detected := btruthy (bd.features.bind FeaturesData.nightmare),
     weight := 30, passReason := "Nightmare.js not detected",
     failReason := "Nightmare.js detected", category := some "automation" },
   { name := "selenium", detected := btruthy (bd.features.bind FeaturesData.selenium),
     weight := 30, passReason := "Selenium markers not detected",
     failReason := "Selenium markers detected", category := some "automation" },
   { name := "domAutomation", detected := btruthy (bd.features.bind FeaturesData.domAutomation),
     weight := 30, passReason := "DOM automation attribute not detected",
     failReason := "DOM automation attribute detected", category := some "automation" },
   { name := "jsChallengeFailed", detected := !sigJsChallengeValid bd, weight := 35,
     passReason := "JS challenge passed (solved in " ++ toString (jscSolve.getD 0) ++ "ms)",
     failReason :=
       match jsChallenge with
       | some jc => "JS challenge failed: " ++ (jc.reason.getD "incorrect answer")
       | none => "No JS challenge completed (curl/bot)",
     category := some "automation" }] ++
  (if sigJsChallengeValid bd then
    [{ name := "jsChallengeTimingSuspicious", detected := optGt jscSolve 30000, weight := 10,
       passReason := "Challenge solved in " ++ showOptInt jscSolve ++ "ms",
       failReason := "Challenge took too long: " ++ showOptInt jscSolve ++
         "ms (possible manual solving)",
       category := some "timing" }]
   else [])

/-- ESSENTIAL BROWSER DATA CHECK: `noBrowserData` and the four rules it
suppresses. -/
def sigEssentialRules (bd : Bundle) : List RuleApp :=
  let hasScreenData :=
    optGt (bd.screen.bind ScreenData.width) 0 && optGt (bd.screen.bind ScreenData.height) 0
  let hasWindowData :=
    optGt (bd.window.bind WindowData.innerWidth) 0 ||
      optGt (bd.window.bind WindowData.outerWidth) 0
  let hasNavigatorData :=
    struthy (bd.navigator.bind NavigatorData.userAgent) &&
      struthy (bd.navigator.bind NavigatorData.language)
  let hasTimezoneData :=
    struthy (bd.timezone.bind TimezoneData.timezone) ||
      (bd.timezone.bind TimezoneData.offset).isSome
  let noBrowserDataAtAll := sigNoBrowserData bd
  [{ name := "noBrowserData", detected := noBrowserDataAtAll, weight := 50,
     passReason := "Browser data present",
     failReason := "No browser data submitted (request without JS execution)",
     category := some "automation" },
   { name := "noScreenData", detected := !hasScreenData && !noBrowserDataAtAll, weight := 25,
     passReason := "Screen data available: " ++ showOptInt (bd.screen.bind ScreenData.width) ++
       "x" ++ showOptInt (bd.screen.bind ScreenData.height),
     failReason := "Screen dimensions missing or zero", category := some "browser-features" },
   { name := "noWindowData", detected := !hasWindowData && !noBrowserDataAtAll, weight := 20,
     passReason := "Window data available",
     failReason := "Window dimensions missing", category := some "browser-features" },
   { name := "noNavigatorData", detected := !hasNavigatorData && !noBrowserDataAtAll,
     weight := 25, passReason := "Navigator data available",
     failReason := "Navigator userAgent or language missing",
     category := some "browser-features" },
   { name := "noTimezoneData", detected := !hasTimezoneData && !noBrowserDataAtAll,
     weight := 15, passReason := "Timezone data available",
     failReason := "Timezone information missing", category := some "browser-features" }]

/-- STRONG SIGNALS: plugins, languages, `window.chrome`, headless UA. -/
def sigStrongRules (bd : Bundle) : List RuleApp :=
  let pluginsLength :=
    ((bd.features.bind FeaturesData.pluginsLength).orElse
      (fun _ => bd.plugins.map (fun l => (l.length : Int)))).getD 0
  let languagesLen := (bd.navigator.bind NavigatorData.languages).map List.length
  let hasLanguages := optGt (languagesLen.map (fun n => (n : Int))) 0
  [{ name := "noPlugins", detected := pluginsLength == 0, weight := 15,
     passReason := toString pluginsLength ++ " plugins detected",
     failReason := "No browser plugins detected", category := some "browser-features" },
   { name := "noLanguages", detected := !hasLanguages, weight := 15,
     passReason := toString ((languagesLen.map (fun n => (n : Int))).getD 0) ++
       " languages configured",
     failReason := "navigator.languages is empty", category := some "browser-features" }] ++
  (if sigIsChrome bd then
    [{ name := "missingChrome",
       detected := !btruthy (bd.features.bind FeaturesData.windowChrome), weight := 20,
       passReason := "window.chrome object present",
       failReason := "Chrome UA but window.chrome missing", category := some "consistency" }]
   else []) ++
  [{ name := "headlessUA", detected := jsIncludes (jsToLower (bundleUA bd)) "headless",
     weight := 25, passReason := "No headless indicator in User-Agent",
     failReason := "Headless mentioned in User-Agent", category := some "automation" }]

/-- MEDIUM SIGNALS: permissions, WebGL, screen and window geometry,
storage APIs. -/
def sigMediumRules (bd : Bundle) : List RuleApp :=
  let webglRenderer :=
    let um := jstr (bd.webgl.bind WebglData.unmaskedRenderer)
    if um ≠ "" then um else jstr (bd.webgl.bind WebglData.renderer)
  let webglRendererLower := jsToLower webglRenderer
  let isSoftwareRenderer :=
    jsIncludes webglRendererLower "swiftshader" ||
      jsIncludes webglRendererLower "llvmpipe" || jsIncludes webglRendererLower "mesa"
  let noWebGLRenderer :=
    webglRenderer == "" && bd.webgl.isSome && !struthy (bd.webgl.bind WebglData.error)
  let webglVendor :=
    let um := jstr (bd.webgl.bind WebglData.unmaskedVendor)
    if um ≠ "" then um else jstr (bd.webgl.bind WebglData.vendor)
  let isSoftwareVendor :=
    jsIncludes (jsToLower webglVendor) "brian paul" ||
      jsIncludes (jsToLower webglVendor) "mesa"
  let webglExtensions := (bd.webgl.bind WebglData.extensions).getD []
  let hasWebGLExtensions := decide (0 < webglExtensions.length)
  let screenWidth := (bd.screen.bind ScreenData.width).getD 0
  let screenHeight := (bd.screen.bind ScreenData.height).getD 0
  let innerWidth := (bd.window.bind WindowData.innerWidth).getD 0
  let outerWidth := (bd.window.bind WindowData.outerWidth).getD 0
  let innerHeight := (bd.window.bind WindowData.innerHeight).getD 0
  let outerHeight := (bd.window.bind WindowData.outerHeight).getD 0
  let noWindowChrome :=
    decide (0 < outerWidth) && decide (0 < innerWidth) &&
      outerWidth == innerWidth && outerHeight == innerHeight
  [{ name := "noPermissionsAPI",
     detected := !btruthy (bd.features.bind FeaturesData.permissionsQuery), weight := 10,
     passReason := "Permissions API available",
     failReason := "Permissions API not available", category := some "browser-features" },
   { name := "softwareRenderer", detected := isSoftwareRenderer, weight := 20,
     passReason := "Hardware renderer: " ++
       (if webglRenderer ≠ "" then webglRenderer else "detected"),
     failReason := "Software renderer detected: " ++ webglRenderer,
     category := some "webgl" },
   { name := "noWebGLRenderer", detected := noWebGLRenderer, weight := 10,
     passReason := "WebGL renderer: " ++
       (if webglRenderer ≠ "" then webglRenderer else "available"),
     failReason := "WebGL available but no renderer info", category := some "webgl" },
   { name := "softwareVendor", detected := isSoftwareVendor, weight := 15,
     passReason := "WebGL vendor: " ++ (if webglVendor ≠ "" then webglVendor else "hardware"),
     failReason := "Software WebGL vendor: " ++ webglVendor, category := some "webgl" },
   { name := "noWebGLExtensions", detected := !hasWebGLExtensions, weight := 8,
     passReason := toString webglExtensions.length ++ " WebGL extensions available",
     failReason := "No WebGL extensions available", category := some "webgl" },
   { name := "zeroScreenSize", detected := screenWidth == 0 || screenHeight == 0, weight := 15,
     passReason := "Screen: " ++ toString screenWidth ++ "x" ++ toString screenHeight,
     failReason := "Screen dimensions are zero", category := some "screen" },
   { name := "defaultScreenSize", detected := screenWidth == 800 && screenHeight == 600,
     weight := 10,
     passReason := "Screen: " ++ toString screenWidth ++ "x" ++ toString screenHeight,
     failReason := "Default 800x600 screen (common in bots)", category := some "screen" },
   { name := "noWindowChrome", detected := noWindowChrome, weight := 10,
     passReason := "Window chrome detected (outer: " ++ toString outerWidth ++ "x" ++
       toString outerHeight ++ ", inner: " ++ toString innerWidth ++ "x" ++
       toString innerHeight ++ ")",
     failReason := "innerWidth/Height equals outerWidth/Height (no browser chrome)",
     category := some "screen" },
   { name := "noNotifications",
     detected := !btruthy (bd.features.bind FeaturesData.notifications), weight := 5,
     passReason := "Notification API available",
     failReason := "Notification API not available", category := some "browser-features" },
   { name := "noWebRTC", detected := !btruthy (bd.features.bind FeaturesData.webRTC),
     weight := 8, passReason := "WebRTC available",
     failReason := "WebRTC not available", category := some "browser-features" },
   { name := "noIndexedDB", detected := !btruthy (bd.features.bind FeaturesData.indexedDB),
     weight := 8, passReason := "IndexedDB available",
     failReason := "IndexedDB not available", category := some "browser-features" },
   { name := "noLocalStorage", detected := !btruthy (bd.features.bind FeaturesData.localStorage),
     weight := 10, passReason := "localStorage available",
     failReason := "localStorage not available", category := some "browser-features" },
   { name := "noSessionStorage",
     detected := !btruthy (bd.features.bind FeaturesData.sessionStorage), weight := 10,
     passReason := "sessionStorage available",
     failReason := "sessionStorage not available", category := some "browser-features" }]

/-- WEAK SIGNALS: battery, media devices, touch, voices, connection API. -/
def sigWeakRules (bd : Bundle) : List RuleApp :=
  let hasBattery := bd.battery.isSome && !struthy (bd.battery.bind BatteryData.error)
  let totalDevices :=
    (bd.mediaDevices.bind MediaDevicesData.audioinput).getD 0 +
      (bd.mediaDevices.bind MediaDevicesData.audiooutput).getD 0 +
      (bd.mediaDevices.bind MediaDevicesData.videoinput).getD 0
  let voiceCount := (bd.speechVoices.bind SpeechVoicesData.count).getD 0
  [{ name := "noBattery", detected := !hasBattery, weight := 2,
     passReason := "Battery API available",
     failReason := "Battery API not available", category := some "browser-features" },
   { name := "noMediaDevices", detected := !sigHasMediaDevices bd, weight := 5,
     passReason := "Media devices API available",
     failReason := "Media devices not available", category := some "browser-features" }] ++
  (if sigHasMediaDevices bd then
    [{ name := "zeroMediaDevices", detected := totalDevices == 0, weight := 8,
       passReason := toString totalDevices ++ " media devices detected",
       failReason := "Zero media devices detected", category := some "browser-features" }]
   else []) ++
  (if sigIsMobileUA bd then
    [{ name := "mobileNoTouch",
       detected := (bd.touch.bind TouchData.maxTouchPoints) == some 0, weight := 15,
       passReason := "Touch support: " ++
         showOptInt (bd.touch.bind TouchData.maxTouchPoints) ++ " touch points",
       failReason := "Mobile UA but no touch support", category := some "consistency" }]
   else []) ++
  (if !sigIsMobileUA bd then
    [{ name := "desktopTouchMismatch",
       detected := optGt (bd.touch.bind TouchData.maxTouchPoints) 0 &&
         !btruthy (bd.touch.bind TouchData.touchEvent),
       weight := 5, passReason := "Touch configuration consistent",
       failReason := "Desktop UA with touch points but no touch events",
       category := some "consistency" }]
   else []) ++
  [{ name := "noSpeechVoices", detected := voiceCount == 0, weight := 3,
     passReason := toString voiceCount ++ " speech voices available",
     failReason := "No speech synthesis voices", category := some "browser-features" }] ++
  (if sigIsChrome bd then
    [{ name := "noConnectionAPI", detected := bd.connection.isNone, weight := 5,
       passReason := "Network Information API available",
       failReason := "Network Information API not available in Chrome",
       category := some "browser-features" }]
   else [])

/-- Fonts, canvas, audio, performance memory, visibility, screen depth. -/
def sigFontCanvasRules (bd : Bundle) : List RuleApp :=
  let fontsCount : Int := (bd.fonts.map (fun l => (l.length : Int))).getD 0
  let hasCanvas :=
    struthy (bd.canvas.bind CanvasData.hash) && !struthy (bd.canvas.bind CanvasData.error)
  let dpr := bd.screen.bind ScreenData.dpr
  let unusualDPR :=
    match dpr with
    | some d => d != 0 && (decide (d < (1 : Rat) / 2) || decide ((4 : Rat) < d))
    | none => false
  let colorDepth := bd.screen.bind ScreenData.colorDepth
  let lowColorDepth :=
    match colorDepth with
    | some c => c != 0 && decide (c < 24)
    | none => false
  [{ name := "noFonts", detected := fontsCount == 0, weight := 10,
     passReason := toString fontsCount ++ " fonts detected",
     failReason := "No fonts detected", category := some "browser-features" },
   { name := "fewFonts", detected := decide (0 < fontsCount) && decide (fontsCount < 5),
     weight := 5, passReason := toString fontsCount ++ " fonts detected",
     failReason := "Only " ++ toString fontsCount ++ " fonts detected (minimal)",
     category := some "browser-features" },
   { name := "noCanvasHash", detected := !hasCanvas, weight := 8,
     passReason := "Canvas fingerprint available",
     failReason := "Canvas fingerprint unavailable", category := some "browser-features" },
   { name := "audioError", detected := struthy (bd.audio.bind AudioData.error), weight := 5,
     passReason := "Audio context working",
     failReason := "Audio context error", category := some "browser-features" }] ++
  (if sigIsChrome bd then
    [{ name := "noPerformanceMemory",
       detected := !ntruthy (bd.performance.bind PerformanceData.jsHeapSizeLimit), weight := 5,
       passReason := "performance.memory available",
       failReason := "performance.memory not available in Chrome",
       category := some "browser-features" }]
   else []) ++
  [{ name := "documentHidden", detected := (bd.document.bind DocumentData.hidden) == some true,
     weight := 8, passReason := "Document visible during fingerprinting",
     failReason := "Document was hidden during fingerprinting",
     category := some "browser-features" },
   { name := "unusualDPR", detected := unusualDPR, weight := 5,
     passReason := "devicePixelRatio: " ++ showOptRat dpr,
     failReason := "Unusual devicePixelRatio: " ++ showOptRat dpr,
     category := some "screen" },
   { name := "lowColorDepth", detected := lowColorDepth, weight := 5,
     passReason := "Color depth: " ++ showOptInt colorDepth,
     failReason := "Low color depth: " ++ showOptInt colorDepth,
     category := some "screen" }]

/-- Navigator consistency plus the remaining feature-presence rules. -/
def sigApiPresenceRules (bd : Bundle) : List RuleApp :=
  let navInconsistent :=
    (bd.navigator.bind NavigatorData.appName) == some "Netscape" &&
      (bd.navigator.bind NavigatorData.product) != some "Gecko"
  [{ name := "navigatorInconsistency", detected := navInconsistent, weight := 5,
     passReason := "Navigator properties consistent",
     failReason := "Navigator properties inconsistent", category := some "consistency" },
   { name := "noGamepadAPI", detected := !btruthy (bd.gamepads.bind GamepadsData.supported),
     weight := 2, passReason := "Gamepad API supported",
     failReason := "Gamepad API not supported", category := some "browser-features" },
   { name := "keyboardAPIError", detected := struthy (bd.keyboard.bind KeyboardData.error),
     weight := 5, passReason := "Keyboard API working",
     failReason := "Keyboard API error (possible automation)",
     category := some "browser-features" },
   { name := "noServiceWorker",
     detected := !btruthy (bd.features.bind FeaturesData.serviceWorker), weight := 3,
     passReason := "Service Worker supported",
     failReason := "Service Worker not supported", category := some "browser-features" },
   { name := "noWebAssembly", detected := !btruthy (bd.features.bind FeaturesData.webAssembly),
     weight := 5, passReason := "WebAssembly supported",
     failReason := "WebAssembly not supported", category := some "browser-features" },
   { name := "noBluetooth", detected := !btruthy (bd.features.bind FeaturesData.bluetooth),
     weight := 2, passReason := "Bluetooth API available",
     failReason := "Bluetooth API not available", category := some "browser-features" },
   { name := "noUSB", detected := !btruthy (bd.features.bind FeaturesData.usb), weight := 2,
     passReason := "USB API available",
     failReason := "USB API not available", category := some "browser-features" },
   { name := "noCredentials", detected := !btruthy (bd.features.bind FeaturesData.credentials),
     weight := 3, passReason := "Credentials API available",
     failReason := "Credentials API not available", category := some "browser-features" }]

/-- HEADER-BASED SIGNALS of the Signal Evaluator.  Note the weights that
differ from the Header Evaluator and the shorter bot-pattern list. -/
def sigHeaderSignalRules (bd : Bundle) (headers : Headers) : List RuleApp :=
  let headerUA := jstr headers.userAgent
  let matched := sigBotPatterns.find? (fun p => jsIncludes (jsToLower headerUA) p)
  [{ name := "noAcceptLanguage", detected := !struthy headers.acceptLanguage, weight := 10,
     passReason := "Accept-Language header present",
     failReason := "Accept-Language header missing", category := some "headers" },
   { name := "noAcceptHeader", detected := !struthy headers.accept, weight := 5,
     passReason := "Accept header present",
     failReason := "Accept header missing", category := some "headers" },
   { name := "botUserAgent", detected := matched.isSome, weight := 25,
     passReason := "User-Agent appears legitimate",
     failReason := "Bot-like User-Agent pattern: " ++ showOptStr matched,
     category := some "headers" },
   { name := "shortUserAgent", detected := decide (jsLen headerUA < 20), weight := 15,
     passReason := "User-Agent length: " ++ toString (jsLen headerUA) ++ " chars",
     failReason := "User-Agent too short: " ++ toString (jsLen headerUA) ++ " chars",
     category := some "headers" },
   { name := "noSecFetch",
     detected := !(struthy headers.secFetchDest || struthy headers.secFetchMode), weight := 8,
     passReason := "Sec-Fetch headers present",
     failReason := "Sec-Fetch headers missing", category := some "headers" }] ++
  (if sigIsChrome bd then
    [{ name := "noSecChUa", detected := !struthy headers.secChUa, weight := 8,
       passReason := "Sec-CH-UA header present",
       failReason := "Sec-CH-UA header missing in Chrome", category := some "headers" }]
   else []) ++
  [{ name := "noConnectionHeader", detected := !struthy headers.connection, weight := 3,
     passReason := "Connection header present",
     failReason := "Connection header missing", category := some "headers" },
   { name := "noCacheControl", detected := !struthy headers.cacheControl, weight := 2,
     passReason := "Cache-Control header present",
     failReason := "Cache-Control header missing", category := some "headers" }]

/-- CONSISTENCY CHECKS between headers and bundle fields. -/
def sigConsistencyRules (bd : Bundle) (headers : Headers) : List RuleApp :=
  let userAgent := bundleUA bd
  let headerUA := jstr headers.userAgent
  let platform := jstr (bd.navigator.bind NavigatorData.platform)
  let platformLower := jsToLower platform
  let vendor := jstr (bd.navigator.bind NavigatorData.vendor)
  let acceptLanguage := jstr headers.acceptLanguage
  let navigatorLanguage := jstr (bd.navigator.bind NavigatorData.language)
  let langMismatch :=
    if acceptLanguage ≠ "" && navigatorLanguage ≠ "" then
      jsToLower (firstSeg '-' (firstSeg ',' acceptLanguage)) !=
        jsToLower (firstSeg '-' navigatorLanguage)
    else false
  let platformMismatch :=
    (jsIncludes userAgent "Windows" && !jsIncludes platformLower "win") ||
      (jsIncludes userAgent "Mac" && !jsIncludes platformLower "mac") ||
      (jsIncludes userAgent "Linux" && !jsIncludes platformLower "linux" && !sigIsMobileUA bd)
  let platformMismatchReason :=
    if jsIncludes userAgent "Windows" && !jsIncludes platformLower "win" then
      "UA says Windows but platform differs"
    else if jsIncludes userAgent "Mac" && !jsIncludes platformLower "mac" then
      "UA says Mac but platform differs"
    else if jsIncludes userAgent "Linux" && !jsIncludes platformLower "linux" &&
        !sigIsMobileUA bd then
      "UA says Linux but platform differs"
    else "Platform mismatch detected"
  let timezone := jstr (bd.timezone.bind TimezoneData.timezone)
  let timezoneOffset := bd.timezone.bind TimezoneData.offset
  let tzInconsistent :=
    if timezone ≠ "" && timezoneOffset.isSome then
      (jsIncludes timezone "America/" && decide (timezoneOffset.getD 0 < 0)) ||
        (jsIncludes timezone "Europe/" && decide (60 < timezoneOffset.getD 0))
    else false
  let clientHintsMismatch :=
    if struthy (bd.userAgentData.bind UserAgentDataBlock.platform) &&
        struthy (bd.navigator.bind NavigatorData.platform) then
      jsIncludes platformLower "win" &&
        !jsIncludes (jsToLower (jstr (bd.userAgentData.bind UserAgentDataBlock.platform))) "win"
    else false
  let vendorMismatch :=
    (sigIsChrome bd && !jsIncludes vendor "Google") ||
      (sigIsSafari bd && !jsIncludes vendor "Apple")
  let vendorMismatchReason :=
    if sigIsChrome bd && !jsIncludes vendor "Google" then "Chrome UA but vendor not Google"
    else if sigIsSafari bd && !jsIncludes vendor "Apple" then "Safari UA but vendor not Apple"
    else "Vendor mismatch"
  let productValue := bd.navigator.bind NavigatorData.product
  [{ name := "uaMismatch",
     detected := headerUA ≠ "" && struthy (bd.navigator.bind NavigatorData.userAgent) &&
       headerUA != jstr (bd.navigator.bind NavigatorData.userAgent),
     weight := 20, passReason := "User-Agent header matches navigator.userAgent",
     failReason := "User-Agent header differs from navigator.userAgent",
     category := some "consistency" },
   { name := "languageMismatch", detected := langMismatch, weight := 10,
     passReason := "Accept-Language matches navigator.language",
     failReason := "Accept-Language differs from navigator.language",
     category := some "consistency" },
   { name := "platformMismatch", detected := platformMismatch, weight := 15,
     passReason := "Platform consistent: " ++ platform,
     failReason := platformMismatchReason, category := some "consistency" },
   { name := "timezoneInconsistent", detected := tzInconsistent, weight := 10,
     passReason := "Timezone consistent: " ++ timezone ++ " (offset: " ++
       showOptInt timezoneOffset ++ ")",
     failReason := "Timezone name and offset inconsistent", category := some "consistency" },
   { name := "clientHintsMismatch", detected := clientHintsMismatch, weight := 15,
     passReason := "Client Hints consistent with navigator",
     failReason := "Client Hints platform differs from navigator.platform",
     category := some "consistency" },
   { name := "vendorMismatch", detected := vendorMismatch, weight := 10,
     passReason := "Vendor consistent: " ++ vendor,
     failReason := vendorMismatchReason, category := some "consistency" },
   { name := "productInconsistent", detected := productValue != some "Gecko", weight := 3,
     passReason := "navigator.product is Gecko",
     failReason := "navigator.product is " ++ showOptStr productValue ++ ", expected Gecko",
     category := some "consistency" }]

/-- TIMING, MATH-FINGERPRINT and WEBGL2 rules. -/
def sigTimingRules (bd : Bundle) : List RuleApp :=
  let loadTime :=
    if ntruthy (bd.performance.bind PerformanceData.navigationStart) &&
        ntruthy (bd.performance.bind PerformanceData.loadEventEnd) then
      some ((bd.performance.bind PerformanceData.loadEventEnd).getD 0 -
        (bd.performance.bind PerformanceData.navigationStart).getD 0)
    else (none : Option Int)
  let mathAcos := bd.math.bind MathData.acos
  let mathSuspicious :=
    match mathAcos with
    | some a => a != 0 && decide ((1 : Rat) / 10000000 < |a - expectedAcos|)
    | none => false
  let hasWebGL2 := bd.webgl2.isSome && !struthy (bd.webgl2.bind Webgl2Data.error)
  [{ name := "negativeLoadTime", detected := loadTime.isSome && decide (loadTime.getD 0 < 0),
     weight := 20, passReason := "Page load time: " ++ showNullInt loadTime ++ "ms",
     failReason := "Negative page load time (timing manipulation)",
     category := some "timing" },
   { name := "zeroLoadTime", detected := loadTime == some 0, weight := 15,
     passReason := "Page load time: " ++ showNullInt loadTime ++ "ms",
     failReason := "Zero page load time", category := some "timing" },
   { name := "mathInconsistent", detected := mathSuspicious, weight := 10,
     passReason := "Math functions consistent",
     failReason := "Math function results inconsistent (possible spoofing)",
     category := some "fingerprint" },
   { name := "noWebGL2", detected := !hasWebGL2 && sigIsChrome bd, weight := 3,
     passReason := "WebGL2 available",
     failReason := "WebGL2 not available", category := some "webgl" }]

/-- The rule applications of the Signal Evaluator, in source order. -/
def sigRuleApps (bd : Bundle) (headers : Headers) : List RuleApp :=
  sigAutomationRules bd ++ sigEssentialRules bd ++ sigStrongRules bd ++
    sigMediumRules bd ++ sigWeakRules bd ++ sigFontCanvasRules bd ++
    sigApiPresenceRules bd ++ sigHeaderSignalRules bd headers ++
    sigConsistencyRules bd headers ++ sigTimingRules bd

/-- Insert a signal into the grouped-by-category association list:
append to the group if the key exists, otherwise add a new group at the
end (JS object-key insertion order). -/
def insertGrouped : List (String × List Signal) → String → Signal →
    List (String × List Signal)
  | [], c, s => [(c, [s])]
  | (k, l) :: rest, c, s =>
    if k == c then (k, l ++ [s]) :: rest else (k, l) :: insertGrouped rest c s

/-- `signalsByCategory`: group all signals by `signal.category || 'general'`. -/
def groupByCategory (sigs : List Signal) : List (String × List Signal) :=
  sigs.foldl (fun acc s => insertGrouped acc (s.category.getD "general") s) []

/-- Full bot-signal analysis (`analyzeBotSignals` in the source).  Its
response carries `signalsByCategory`, the grouping of all signals. -/
def analyzeBotSignals (bd : Bundle) (headers : Headers) : Verdict :=
  let st := (sigRuleApps bd headers).foldl addSignal ([], 0)
  assembleVerdict st (some (groupByCategory st.1))

/-! ## Challenge store

`challenges` is a JS `Map` from challenge id to the stored record; it is
modelled as an insertion-ordered association list with unique keys
(`Map.set` replaces in place, `Map.delete` removes, `Map.get` finds).
Times are `Int` milliseconds (`Date.now()`). -/

structure Challenge where
  expectedAnswer : Int
  timestamp : Int
  ip : String
  deriving DecidableEq

/-- The challenge map. -/
abbrev ChallengeMap := List (String × Challenge)

/-- `challenges.get(id)`. -/
def challengesGet (m : ChallengeMap) (id : String) : Option Challenge :=
  (m.find? (fun kv => kv.1 == id)).map (fun kv => kv.2)

/-- `challenges.set(id, c)`: replace in place if the key exists, else
append (JS `Map` insertion order). -/
def challengesSet (m : ChallengeMap) (id : String) (c : Challenge) : ChallengeMap :=
  if (m.find? (fun kv => kv.1 == id)).isSome then
    m.map (fun kv => if kv.1 == id then (id, c) else kv)
  else m ++ [(id, c)]

/-- `challenges.delete(id)`. -/
def challengesDelete (m : ChallengeMap) (id : String) : ChallengeMap :=
  m.filter (fun kv => kv.1 != id)

/-- `CHALLENGE_TTL`. -/
def CHALLENGE_TTL : Int := 60000

/-- The sweep run by the issue endpoint: delete every challenge with
`Date.now() - challenge.timestamp > CHALLENGE_TTL`. -/
def challengesSweep (m : ChallengeMap) (now : Int) : ChallengeMap :=
  m.filter (fun kv => !decide (CHALLENGE_TTL < now - kv.2.timestamp))

/-- The arithmetic operator of a challenge. -/
inductive ChallengeOp
  | add
  | mul
  | sub
  deriving DecidableEq

def ChallengeOp.symbol : ChallengeOp → String
  | .add => "+"
  | .mul => "*"
  | .sub => "-"

def ChallengeOp.apply : ChallengeOp → Int → Int → Int
  | .add, a, b => a + b
  | .mul, a, b => a * b
  | .sub, a, b => a - b

/-- The response body of `GET /api/challenge`. -/
structure ChallengeIssueResponse where
  challengeId : String
  challenge : String
  timingChallenge : Int
  deriving DecidableEq

/-- `GET /api/challenge`: store the expected answer under the fresh id,
sweep expired entries, and return the challenge as JS source text.  The
random choices (`challengeId`, `a`, `b`, `operation`) and `Date.now()`
are parameters. -/
def issueChallenge (m : ChallengeMap) (challengeId : String) (a b : Int)
    (operation : ChallengeOp) (now : Int) (ip : String) :
    ChallengeMap × ChallengeIssueResponse :=
  let expectedAnswer := operation.apply a b
  let m1 := challengesSet m challengeId
    { expectedAnswer := expectedAnswer, timestamp := now, ip := ip }
  let m2 := challengesSweep m1 now
  (m2,
   { challengeId := challengeId,
     challenge := "(function() \x7b return " ++ toString a ++ " " ++ operation.symbol ++
       " " ++ toString b ++ "; \x7d)()",
     timingChallenge := now })

/-- The response body of `POST /api/challenge/verify`.  The not-found
response carries only `valid` and `reason`; the normal response carries
`valid`, `timingValid`, `executionTime` and `solveTime`. -/
structure VerifyResponse where
  valid : Bool
  reason : Option String := none
  timingValid : Option Bool := none
  executionTime : Option Int := none
  solveTime : Option Int := none
  deriving DecidableEq

/-- The `{valid:false, reason:'Challenge not found or expired'}` response. -/
def challengeNotFoundResponse : VerifyResponse :=
  { valid := false, reason := some "Challenge not found or expired" }

/-- `POST /api/challenge/verify`: look the id up, compare the answer,
check the timing proof, and delete the entry whether or not the check
passed.  Returns the updated map and the JSON response. -/
def verifyChallenge (m : ChallengeMap) (challengeId : String) (answer : Option Int)
    (timingProof : Option Int) (executionTime : Option Int) (now : Int) :
    ChallengeMap × VerifyResponse :=
  match challengesGet m challengeId with
  | none => (m, challengeNotFoundResponse)
  | some challenge =>
    let isCorrect := answer == some challenge.expectedAnswer
    let timeDiff := now - challenge.timestamp
    let timingValid :=
      ntruthy timingProof &&
        decide (|timingProof.getD 0 - challenge.timestamp| < 1000) &&
        optGt executionTime 0 && decide (executionTime.getD 0 < 5000)
    (challengesDelete m challengeId,
     { valid := isCorrect,
       timingValid := some timingValid,
       executionTime := executionTime,
       solveTime := some timeDiff })

/-! ## Visit tracker

`pageVisits` maps client IP to a visit record.  The claims are all
per-session, so the state of a single IP is modelled: `Option Visit`,
`none` when no visit is tracked.  `timerArmed` models a non-null
`timeoutId`. -/

/-- `VISIT_TTL`. -/
def VISIT_TTL : Int := 5000

structure Visit where
  timestamp : Int
  completed : Bool
  botApiCalled : Bool
  timerArmed : Bool
  finalVerdict : Option Verdict
  deriving DecidableEq

/-- The reason of the timeout verdict delivered by the deadline timer. -/
def timeoutReason : String :=
  "Fetched page but never called /api/bot within 5 seconds (no JS execution)"

/-- The `noJsExecution` signal of the frozen timeout verdict. -/
def noJsExecutionSignal (reason : String) : Signal :=
  { name := "noJsExecution", detected := true, weight := 100,
    reason := reason, category := some "automation" }

/-- The frozen verdict recorded by `deliverBotVerdict` (code 1006). -/
def timeoutVerdict (reason : String) : Verdict :=
  { verdict := "bot", score := 100, maxScore := 100, code := some 1006,
    confidence := "high", reason := some reason,
    signals := [noJsExecutionSignal reason],
    allSignals := [noJsExecutionSignal reason],
    signalsByCategory := some [("automation", [noJsExecutionSignal reason])],
    summary := { totalChecks := 1, flagged := 1, passed := 0 } }

/-- `trackPageVisit`: clear any existing timer, replace the session and
arm a fresh timer (the 60-second sweep of other IPs does not affect this
IP's fresh entry). -/
def trackPageVisit (now : Int) (_st : Option Visit) : Visit :=
  { timestamp := now, completed := false, botApiCalled := false,
    timerArmed := true, finalVerdict := none }

/-- `markBotApiCalled`: set the flag and clear the timer, if a visit is
tracked. -/
def markBotApiCalled (st : Option Visit) : Option Visit :=
  match st with
  | none => none
  | some v => some { v with botApiCalled := true, timerArmed := false }

/-- `markVisitComplete`: set `completed`, if a visit is tracked. -/
def markVisitComplete (st : Option Visit) : Option Visit :=
  match st with
  | none => none
  | some v => some { v with completed := true }

/-- `deliverBotVerdict`: freeze the timeout verdict unless the visit is
absent or already completed.  Returns the new state and whether the
verdict was actually delivered. -/
def deliverBotVerdict (st : Option Visit) (reason : String) : Option Visit × Bool :=
  match st with
  | none => (none, false)
  | some v =>
    if v.completed then (some v, false)
    else
      (some { v with completed := true, finalVerdict := some (timeoutVerdict reason) }, true)

/-- The deadline-timer callback armed by `trackPageVisit`: deliver the
timeout verdict unless `/api/bot` was called. -/
def visitTimerFire (st : Option Visit) : Option Visit × Bool :=
  match st with
  | none => (none, false)
  | some v =>
    if !v.botApiCalled then deliverBotVerdict (some v) timeoutReason
    else (some v, false)

/-- The 60-second sweep run by `trackPageVisit` on another IP: the entry
is removed when older than 60 seconds. -/
def visitSweep (now : Int) (st : Option Visit) : Option Visit :=
  match st with
  | none => none
  | some v => if decide (60000 < now - v.timestamp) then none else some v

/-- `Math.round((VISIT_TTL - elapsed) / 1000)` (JS rounds half toward
positive infinity, i.e. `floor(x + 1/2)`). -/
def jsRoundDiv1000 (x : Int) : Int := (2 * x + 1000).fdiv 2000

/-- The response of `GET /api/visit-status`: either the frozen full
verdict object or one of the small status objects. -/
inductive VisitStatus
  | full (v : Verdict)
  | status (verdict : String) (code : Option Nat) (reason : String)
  deriving DecidableEq

/-- `getVisitVerdict`. -/
def getVisitVerdict (now : Int) (st : Option Visit) : VisitStatus :=
  match st with
  | none => .status "unknown" none "No visit tracked for this IP"
  | some visit =>
    match visit.finalVerdict with
    | some fv => .full fv
    | none =>
      let elapsed := now - visit.timestamp
      if visit.completed && visit.botApiCalled then
        .status "pending-analysis" none "Visit complete, awaiting full analysis"
      else if !visit.botApiCalled then
        if decide (VISIT_TTL < elapsed) then
          .status "bot" (some 1006) "Never called /api/bot - no JS execution"
        else
          .status "pending" none ("Waiting for /api/bot call (" ++
            toString (jsRoundDiv1000 (VISIT_TTL - elapsed)) ++ "s remaining)")
      else .status "pending" none "Bot API called, awaiting completion"

/-! ## The `POST /api/bot` handler -/

/-- `hasEssentialData` in the handler:
`browserData?.screen?.width > 0 && browserData?.navigator?.userAgent &&
browserData?.window`. -/
def hasEssentialData (bd : Bundle) : Bool :=
  optGt (bd.screen.bind ScreenData.width) 0 &&
    struthy (bd.navigator.bind NavigatorData.userAgent) && bd.window.isSome

/-- `hasJsChallenge` in the handler: `browserData?.jsChallenge?.valid === true`. -/
def hasJsChallenge (bd : Bundle) : Bool :=
  (bd.jsChallenge.bind JsChallengeData.valid) == some true

/-- The `reason` string of the early-reject response. -/
def earlyRejectReason (bd : Bundle) : String :=
  if !hasEssentialData bd then "Missing essential browser data (no JS execution)"
  else "JS challenge not completed or failed"

/-- The single `jsExecutionFailed` signal of the early-reject verdict. -/
def jsExecutionFailedSignal (reason : String) : Signal :=
  { name := "jsExecutionFailed", detected := true, weight := 100,
    reason := reason, category := some "automation" }

/-- The synthetic early-reject verdict (code 1005). -/
def earlyRejectVerdict (reason : String) : Verdict :=
  { verdict := "bot", score := 100, maxScore := 100, code := some 1005,
    confidence := "high", reason := some reason,
    signals := [jsExecutionFailedSignal reason],
    allSignals := [jsExecutionFailedSignal reason],
    signalsByCategory := some [("automation", [jsExecutionFailedSignal reason])],
    summary := { totalChecks := 1, flagged := 1, passed := 0 } }

/-- Which path the handler took: `early` responses are produced by the
short-circuit `return` before `analyzeBotSignals` runs. -/
inductive BotApiResult
  | early (v : Verdict)
  | analyzed (v : Verdict)
  deriving DecidableEq

/-- `POST /api/bot`: mark the bot API called, early-reject when the
essential data or a valid JS challenge is missing, otherwise run the
Signal Evaluator and mark the visit complete.  Returns the session state
of the caller's IP after the handler and the JSON response. -/
def apiBotStep (bd : Bundle) (headers : Headers) (st : Option Visit) :
    Option Visit × BotApiResult :=
  let st1 := markBotApiCalled st
  if !hasEssentialData bd || !hasJsChallenge bd then
    (st1, .early (earlyRejectVerdict (earlyRejectReason bd)))
  else
    (markVisitComplete st1, .analyzed (analyzeBotSignals bd headers))

/-! ## Event traces over one session

For the temporal claims the operations that can touch one IP's visit
record are events; a trace is a list of events.  `runVisitEvents` returns
the final state and how many times the deadline callback actually froze a
timeout verdict. -/

inductive VisitEv
  | track (t : Int)
  | markApi
  | markComplete
  | fire
  | evict (t : Int)
  deriving DecidableEq

def VisitEv.isTrack : VisitEv → Bool
  | .track _ => true
  | _ => false

/-- One event against one IP's visit state; the `Bool` is `true` when the
event was a timer firing that delivered the frozen timeout verdict. -/
def visitStep (st : Option Visit) : VisitEv → Option Visit × Bool
  | .track t => (some (trackPageVisit t st), false)
  | .markApi => (markBotApiCalled st, false)
  | .markComplete => (markVisitComplete st, false)
  | .fire => visitTimerFire st
  | .evict t => (visitSweep t st, false)

/-- Run a trace, counting deliveries of the frozen timeout verdict. -/
def runVisitEvents (st : Option Visit) : List VisitEv → Option Visit × Nat
  | [] => (st, 0)
  | e :: es =>
    let r := visitStep st e
    let rest := runVisitEvents r.1 es
    (rest.1, (if r.2 then 1 else 0) + rest.2)

/-- States from which no timeout verdict can ever be delivered again:
no visit, or a completed visit. -/
def visitSettled (st : Option Visit) : Prop :=
  st = none ∨ ∃ v, st = some v ∧ v.completed = true

/-- States in which the analysis endpoint has been observed
(`botApiCalled`), or no visit is tracked. -/
def visitCalled (st : Option Visit) : Prop :=
  st = none ∨ ∃ v, st = some v ∧ v.botApiCalled = true

/-! # Theorems

Helper lemmas about the signal accumulator, then the claim theorems. -/

theorem toSignal_name (r : RuleApp) : (toSignal r).name = r.name := by
  unfold toSignal; split <;> rfl

theorem toSignal_detected (r : RuleApp) : (toSignal r).detected = r.detected := by
  unfold toSignal
  split
  · next h => simp [h]
  · next h => simp [Bool.not_eq_true] at h; simp [h]

theorem toSignal_weight (r : RuleApp) : (toSignal r).weight = r.weight := by
  unfold toSignal; split <;> rfl

theorem sumDetectedWeights_append (l₁ l₂ : List Signal) :
    sumDetectedWeights (l₁ ++ l₂) = sumDetectedWeights l₁ + sumDetectedWeights l₂ := by
  simp [sumDetectedWeights, List.filter_append]

theorem sumDetectedWeights_single (s : Signal) :
    sumDetectedWeights [s] = if s.detected then s.weight else 0 := by
  unfold sumDetectedWeights
  by_cases h : s.detected <;> simp [h]

/-- The signal list built by folding `addSignal` is the initial list
followed by the signal of each rule application, in order. -/
theorem foldl_addSignal_fst (rs : List RuleApp) :
    ∀ st : List Signal × Nat, (rs.foldl addSignal st).1 = st.1 ++ rs.map toSignal := by
  induction rs with
  | nil => intro st; simp
  | cons r rs ih =>
    intro st
    simp only [List.foldl_cons, List.map_cons, ih, addSignal]
    simp

/-- The score built by folding `addSignal` is the initial score plus the
sum of the weights of the detected signals pushed by the fold. -/
theorem foldl_addSignal_snd (rs : List RuleApp) :
    ∀ st : List Signal × Nat,
      (rs.foldl addSignal st).2 = st.2 + sumDetectedWeights (rs.map toSignal) := by
  induction rs with
  | nil => intro st; simp [sumDetectedWeights]
  | cons r rs ih =>
    intro st
    have hsingle : sumDetectedWeights [toSignal r] = if r.detected then r.weight else 0 := by
      rw [sumDetectedWeights_single, toSignal_detected, toSignal_weight]
    calc (List.foldl addSignal st (r :: rs)).2
        = (addSignal st r).2 + sumDetectedWeights (rs.map toSignal) := by
          simp only [List.foldl_cons, ih]
      _ = st.2 + sumDetectedWeights (toSignal r :: rs.map toSignal) := by
          show (if r.detected then st.2 + r.weight else st.2) + _ = _
          have : (toSignal r :: List.map toSignal rs) = [toSignal r] ++ List.map toSignal rs := rfl
          rw [this, sumDetectedWeights_append, hsingle]
          by_cases h : r.detected
          · simp [h]; omega
          · simp [h]
      _ = st.2 + sumDetectedWeights ((r :: rs).map toSignal) := by simp

theorem assembleVerdict_score (st : List Signal × Nat)
    (byCategory : Option (List (String × List Signal)))
    (h : st.2 = sumDetectedWeights st.1) :
    (assembleVerdict st byCategory).score
      = min 100 (sumDetectedWeights (assembleVerdict st byCategory).allSignals) := by
  show min st.2 100 = min 100 (sumDetectedWeights st.1)
  rw [h, Nat.min_comm]

theorem assembleVerdict_verdict (st : List Signal × Nat)
    (byCategory : Option (List (String × List Signal))) :
    (assembleVerdict st byCategory).verdict
      = (if (assembleVerdict st byCategory).score ≥ 50 then "bot"
         else if (assembleVerdict st byCategory).score ≥ 25 then "suspicious"
         else "human") := rfl

theorem assembleVerdict_confidence (st : List Signal × Nat)
    (byCategory : Option (List (String × List Signal))) :
    (assembleVerdict st byCategory).confidence
      = (if (assembleVerdict st byCategory).score ≥ 50 then "high"
         else if (assembleVerdict st byCategory).score ≥ 25 then "medium"
         else "low") := rfl

/-- The score threaded by the fold equals the declarative sum of the
detected weights over the pushed signals. -/
theorem foldl_addSignal_sum (rs : List RuleApp) :
    ((rs.foldl addSignal ([], 0)).2 : Nat)
      = sumDetectedWeights (rs.foldl addSignal ([], 0)).1 := by
  rw [foldl_addSignal_snd, foldl_addSignal_fst]
  simp

/-- C1: for every input, both the Header Evaluator and the Signal
Evaluator return `score = min(100, Σ weights of detected signals)`,
verdict `bot` when `score ≥ 50`, `suspicious` when `25 ≤ score < 50`,
else `human`, and confidence `high`/`medium`/`low` by the same two
thresholds. -/
theorem evaluators_assemble_min_and_thresholds (headers : Headers) (bd : Bundle) :
    ((analyzeHeadersOnly headers).score
        = min 100 (sumDetectedWeights (analyzeHeadersOnly headers).allSignals) ∧
      (analyzeHeadersOnly headers).verdict
        = (if (analyzeHeadersOnly headers).score ≥ 50 then "bot"
           else if (analyzeHeadersOnly headers).score ≥ 25 then "suspicious" else "human") ∧
      (analyzeHeadersOnly headers).confidence
        = (if (analyzeHeadersOnly headers).score ≥ 50 then "high"
           else if (analyzeHeadersOnly headers).score ≥ 25 then "medium" else "low")) ∧
    ((analyzeBotSignals bd headers).score
        = min 100 (sumDetectedWeights (analyzeBotSignals bd headers).allSignals) ∧
      (analyzeBotSignals bd headers).verdict
        = (if (analyzeBotSignals bd headers).score ≥ 50 then "bot"
           else if (analyzeBotSignals bd headers).score ≥ 25 then "suspicious" else "human") ∧
      (analyzeBotSignals bd headers).confidence
        = (if (analyzeBotSignals bd headers).score ≥ 50 then "high"
           else if (analyzeBotSignals bd headers).score ≥ 25 then "medium" else "low")) := by
  exact ⟨⟨assembleVerdict_score _ _ (foldl_addSignal_sum _),
      assembleVerdict_verdict _ _, assembleVerdict_confidence _ _⟩,
    ⟨assembleVerdict_score _ _ (foldl_addSignal_sum _),
      assembleVerdict_verdict _ _, assembleVerdict_confidence _ _⟩⟩

/-- The request `GET` with only `User-Agent: curl/8.1.2`. -/
def curlHeaders : Headers := { userAgent := some "curl/8.1.2" }

/-- C9: for a request whose only header is `User-Agent: curl/8.1.2`, the
Header Evaluator detects exactly the nine signals `shortUserAgent` (+15),
`botUserAgent` (+30), `noAcceptHeader` (+10), `noAcceptLanguage` (+15),
`noAcceptEncoding` (+10), `noSecFetch` (+15), `noSecChUa` (+8),
`noConnection` (+5) and `noUpgradeInsecure` (+5) — raw sum 113 — and
returns score 100, verdict `bot`, confidence `high`. -/
theorem curl_only_header_analysis :
    ((analyzeHeadersOnly curlHeaders).signals.map (fun s => (s.name, s.weight))) =
      [("shortUserAgent", 15), ("botUserAgent", 30), ("noAcceptHeader", 10),
       ("noAcceptLanguage", 15), ("noAcceptEncoding", 10), ("noSecFetch", 15),
       ("noSecChUa", 8), ("noConnection", 5), ("noUpgradeInsecure", 5)] ∧
    sumDetectedWeights (analyzeHeadersOnly curlHeaders).allSignals = 113 ∧
    (analyzeHeadersOnly curlHeaders).score = 100 ∧
    (analyzeHeadersOnly curlHeaders).verdict = "bot" ∧
    (analyzeHeadersOnly curlHeaders).confidence = "high" := by
  refine ⟨by decide, by decide, by decide, by decide, by decide⟩

/-- C10: `GET /api/visit-status` from an IP with no tracked session
returns `{verdict:'unknown', reason:'No visit tracked for this IP'}`. -/
theorem visit_status_unknown_for_untracked (now : Int) :
    getVisitVerdict now none =
      .status "unknown" none "No visit tracked for this IP" := rfl

/-- A request body that fails the early-reject prerequisites makes the
handler's guard `!hasEssentialData || !hasJsChallenge` true. -/
theorem earlyCondition_of_missing (bd : Bundle)
    (h : optGt (bd.screen.bind ScreenData.width) 0 = false ∨
      struthy (bd.navigator.bind NavigatorData.userAgent) = false ∨
      bd.window = none ∨
      (bd.jsChallenge.bind JsChallengeData.valid) ≠ some true) :
    (!hasEssentialData bd || !hasJsChallenge bd) = true := by
  rcases h with h | h | h | h
  · simp [hasEssentialData, h]
  · simp [hasEssentialData, h]
  · simp [hasEssentialData, h]
  · simp [hasJsChallenge, beq_eq_false_iff_ne, h]

/-- C2: every `POST /api/bot` body that lacks `screen.width > 0`, or a
truthy `navigator.userAgent`, or a `window` object, or whose
`jsChallenge.valid` is not exactly `true`, is answered — without running
the Signal Evaluator — with the synthetic verdict
`{verdict:'bot', score:100, maxScore:100, code:1005, confidence:'high'}`
carrying exactly one signal `jsExecutionFailed` of weight 100 and
category `automation`. -/
theorem apiBot_early_reject_synthetic (bd : Bundle) (headers : Headers)
    (st : Option Visit)
    (h : optGt (bd.screen.bind ScreenData.width) 0 = false ∨
      struthy (bd.navigator.bind NavigatorData.userAgent) = false ∨
      bd.window = none ∨
      (bd.jsChallenge.bind JsChallengeData.valid) ≠ some true) :
    ∃ r : String,
      (apiBotStep bd headers st).2 = .early
        { verdict := "bot", score := 100, maxScore := 100, code := some 1005,
          confidence := "high", reason := some r,
          signals := [{ name := "jsExecutionFailed", detected := true, weight := 100,
                        reason := r, category := some "automation" }],
          allSignals := [{ name := "jsExecutionFailed", detected := true, weight := 100,
                           reason := r, category := some "automation" }],
          signalsByCategory := some [("automation",
            [{ name := "jsExecutionFailed", detected := true, weight := 100,
               reason := r, category := some "automation" }])],
          summary := { totalChecks := 1, flagged := 1, passed := 0 } } := by
  refine ⟨earlyRejectReason bd, ?_⟩
  simp only [apiBotStep, earlyCondition_of_missing bd h, if_true]
  rfl

theorem apiBot_early_reject_synthetic_witness :
    (optGt ((({} : Bundle)).screen.bind ScreenData.width) 0 = false ∨
      struthy (({} : Bundle).navigator.bind NavigatorData.userAgent) = false ∨
      ({} : Bundle).window = none ∨
      (({} : Bundle).jsChallenge.bind JsChallengeData.valid) ≠ some true) ∧
    (∃ r : String,
      (apiBotStep {} {} none).2 = .early
        { verdict := "bot", score := 100, maxScore := 100, code := some 1005,
          confidence := "high", reason := some r,
          signals := [{ name := "jsExecutionFailed", detected := true, weight := 100,
                        reason := r, category := some "automation" }],
          allSignals := [{ name := "jsExecutionFailed", detected := true, weight := 100,
                           reason := r, category := some "automation" }],
          signalsByCategory := some [("automation",
            [{ name := "jsExecutionFailed", detected := true, weight := 100,
               reason := r, category := some "automation" }])],
          summary := { totalChecks := 1, flagged := 1, passed := 0 } }) :=
  ⟨Or.inl (by decide), apiBot_early_reject_synthetic {} {} none (Or.inl (by decide))⟩

/-- C4 counterexample: with a freshly tracked session, the early-reject
path marks `botApiCalled` and clears the timer but leaves `completed`
false — the session is not marked complete. -/
theorem apiBot_early_session_left_incomplete :
    (apiBotStep {} {} (some (trackPageVisit 0 none))).2 =
      .early (earlyRejectVerdict "Missing essential browser data (no JS execution)") ∧
    (apiBotStep {} {} (some (trackPageVisit 0 none))).1 =
      some { timestamp := 0, completed := false, botApiCalled := true,
             timerArmed := false, finalVerdict := none } := by
  exact ⟨by decide, by decide⟩

/-- C4 as amended: on the early-reject path the tracked session gets
`botApiCalled := true` and its timer cleared, but its `completed` flag is
left unchanged; `markVisitComplete` runs only on the weighted-analysis
path. -/
theorem apiBot_early_marks_called_not_complete (bd : Bundle) (headers : Headers)
    (v : Visit)
    (h : optGt (bd.screen.bind ScreenData.width) 0 = false ∨
      struthy (bd.navigator.bind NavigatorData.userAgent) = false ∨
      bd.window = none ∨
      (bd.jsChallenge.bind JsChallengeData.valid) ≠ some true) :
    (apiBotStep bd headers (some v)).1 =
      some { v with botApiCalled := true, timerArmed := false } := by
  simp only [apiBotStep, earlyCondition_of_missing bd h, if_true]
  rfl

theorem apiBot_early_marks_called_not_complete_witness :
    (optGt (({} : Bundle).screen.bind ScreenData.width) 0 = false ∨
      struthy (({} : Bundle).navigator.bind NavigatorData.userAgent) = false ∨
      ({} : Bundle).window = none ∨
      (({} : Bundle).jsChallenge.bind JsChallengeData.valid) ≠ some true) ∧
    (apiBotStep {} {} (some (trackPageVisit 0 none))).1 =
      some { timestamp := 0, completed := false, botApiCalled := true,
             timerArmed := false, finalVerdict := none } :=
  ⟨Or.inl (by decide),
    apiBot_early_marks_called_not_complete {} {} (trackPageVisit 0 none)
      (Or.inl (by decide))⟩

/-- C5 counterexample: after the 5-second deadline fires on a session that
never called `/api/bot`, the visit-status endpoint returns the frozen
full verdict, whose reason is `'Fetched page but never called /api/bot
within 5 seconds (no JS execution)'` — not the claimed simple status with
reason `'Never called /api/bot - no JS execution'`. -/
theorem timeout_status_reason_counterexample :
    (visitTimerFire (some (trackPageVisit 0 none))).2 = true ∧
    getVisitVerdict 6000 (visitTimerFire (some (trackPageVisit 0 none))).1 =
      .full (timeoutVerdict timeoutReason) ∧
    getVisitVerdict 6000 (visitTimerFire (some (trackPageVisit 0 none))).1 ≠
      .status "bot" (some 1006) "Never called /api/bot - no JS execution" ∧
    (timeoutVerdict timeoutReason).reason ≠
      some "Never called /api/bot - no JS execution" := by
  exact ⟨by decide, by decide, by decide, by decide⟩

/-- C5 as amended: once the deadline has fired on a live session with
`botApiCalled` still false, the firing freezes the timeout verdict and a
subsequent `GET /api/visit-status` returns that full frozen verdict:
verdict `bot`, score 100, code 1006, reason `'Fetched page but never
called /api/bot within 5 seconds (no JS execution)'`, with the single
signal `noJsExecution` of weight 100. -/
theorem timeout_status_returns_frozen_verdict (v : Visit) (now : Int)
    (h1 : v.botApiCalled = false) (h2 : v.completed = false) :
    (visitTimerFire (some v)).2 = true ∧
    getVisitVerdict now (visitTimerFire (some v)).1 = .full (timeoutVerdict timeoutReason) ∧
    (timeoutVerdict timeoutReason).verdict = "bot" ∧
    (timeoutVerdict timeoutReason).score = 100 ∧
    (timeoutVerdict timeoutReason).code = some 1006 ∧
    (timeoutVerdict timeoutReason).reason = some timeoutReason ∧
    (timeoutVerdict timeoutReason).signals =
      [{ name := "noJsExecution", detected := true, weight := 100,
         reason := timeoutReason, category := some "automation" }] := by
  refine ⟨?_, ?_, rfl, rfl, rfl, rfl, rfl⟩
  · simp [visitTimerFire, deliverBotVerdict, h1, h2]
  · simp [visitTimerFire, deliverBotVerdict, h1, h2, getVisitVerdict]

theorem timeout_status_returns_frozen_verdict_witness :
    ((trackPageVisit 0 none).botApiCalled = false ∧
      (trackPageVisit 0 none).completed = false) ∧
    ((visitTimerFire (some (trackPageVisit 0 none))).2 = true ∧
      getVisitVerdict 6000 (visitTimerFire (some (trackPageVisit 0 none))).1 =
        .full (timeoutVerdict timeoutReason) ∧
      (timeoutVerdict timeoutReason).verdict = "bot" ∧
      (timeoutVerdict timeoutReason).score = 100 ∧
      (timeoutVerdict timeoutReason).code = some 1006 ∧
      (timeoutVerdict timeoutReason).reason = some timeoutReason ∧
      (timeoutVerdict timeoutReason).signals =
        [{ name := "noJsExecution", detected := true, weight := 100,
           reason := timeoutReason, category := some "automation" }]) :=
  ⟨⟨by decide, by decide⟩,
    timeout_status_returns_frozen_verdict (trackPageVisit 0 none) 6000
      (by decide) (by decide)⟩

/-- Deleting an id removes every entry with that key. -/
theorem challengesGet_delete_self (m : ChallengeMap) (id : String) :
    challengesGet (challengesDelete m id) id = none := by
  induction m with
  | nil => rfl
  | cons kv rest ih =>
    by_cases h : kv.1 = id
    · simp only [challengesDelete, challengesGet] at ih
      simp [challengesDelete, challengesGet, h, ih]
    · have hne : (kv.1 != id) = true := by simp [bne_iff_ne, h]
      have heq : (kv.1 == id) = false := by simp [h]
      simp only [challengesDelete, List.filter_cons, hne, if_true,
        challengesGet, List.find?_cons, heq]
      simp only [challengesDelete, challengesGet] at ih
      exact ih

/-- C8: the first `POST /api/challenge/verify` for a stored id deletes the
challenge whether or not the answer is correct, so a second verify with
the same id answers `{valid:false, reason:'Challenge not found or
expired'}`. -/
theorem challenge_verify_deletes_and_second_fails (m : ChallengeMap) (id : String)
    (c : Challenge) (a1 tp1 et1 a2 tp2 et2 : Option Int) (t1 t2 : Int)
    (hc : challengesGet m id = some c) :
    (verifyChallenge m id a1 tp1 et1 t1).1 = challengesDelete m id ∧
    (verifyChallenge (verifyChallenge m id a1 tp1 et1 t1).1 id a2 tp2 et2 t2).2 =
      challengeNotFoundResponse := by
  have h1 : (verifyChallenge m id a1 tp1 et1 t1).1 = challengesDelete m id := by
    simp [verifyChallenge, hc]
  refine ⟨h1, ?_⟩
  rw [h1]
  simp [verifyChallenge, challengesGet_delete_self]

theorem challenge_verify_deletes_and_second_fails_witness :
    challengesGet [("abc123", ⟨20, 0, "1.2.3.4"⟩)] "abc123" = some ⟨20, 0, "1.2.3.4"⟩ ∧
    ((verifyChallenge [("abc123", ⟨20, 0, "1.2.3.4"⟩)] "abc123" (some 99) none none 100).1 =
        challengesDelete [("abc123", ⟨20, 0, "1.2.3.4"⟩)] "abc123" ∧
      (verifyChallenge
          (verifyChallenge [("abc123", ⟨20, 0, "1.2.3.4"⟩)] "abc123"
            (some 99) none none 100).1
          "abc123" (some 20) (some 1) (some 15) 200).2 = challengeNotFoundResponse) :=
  ⟨by decide,
    challenge_verify_deletes_and_second_fails [("abc123", ⟨20, 0, "1.2.3.4"⟩)] "abc123"
      ⟨20, 0, "1.2.3.4"⟩ (some 99) none none (some 20) (some 1) (some 15) 100 200
      (by decide)⟩

/-- C3 counterexample: a challenge issued at time 0 is still verified
normally at time 61000 when no intervening `GET /api/challenge` ran the
sweep — `verifyChallenge` itself has no age check, so the stale id is not
treated as absent. -/
theorem verify_stale_challenge_counterexample :
    (issueChallenge [] "abc123" 7 13 ChallengeOp.add 0 "1.2.3.4").1 =
      [("abc123", ⟨20, 0, "1.2.3.4"⟩)] ∧
    CHALLENGE_TTL < (61000 : Int) - 0 ∧
    (verifyChallenge [("abc123", ⟨20, 0, "1.2.3.4"⟩)] "abc123"
        (some 20) (some 0) (some 15) 61000).2 =
      { valid := true, timingValid := some false, executionTime := some 15,
        solveTime := some 61000 } ∧
    (verifyChallenge [("abc123", ⟨20, 0, "1.2.3.4"⟩)] "abc123"
        (some 20) (some 0) (some 15) 61000).2 ≠ challengeNotFoundResponse := by
  exact ⟨by decide, by decide, by decide, by decide⟩

theorem challengesGet_cons_of_ne (kv : String × Challenge) (rest : ChallengeMap)
    (id : String) (h : (kv.1 == id) = false) :
    challengesGet (kv :: rest) id = challengesGet rest id := by
  have hp : ¬ (fun x : String × Challenge => x.1 == id) kv = true := by simp [h]
  unfold challengesGet
  rw [List.find?_cons_of_neg rest hp]

theorem challengesGet_cons_of_eq (kv : String × Challenge) (rest : ChallengeMap)
    (id : String) (h : (kv.1 == id) = true) :
    challengesGet (kv :: rest) id = some kv.2 := by
  have hp : (fun x : String × Challenge => x.1 == id) kv = true := h
  unfold challengesGet
  rw [List.find?_cons_of_pos rest hp]
  rfl

theorem challengesGet_none_of_not_mem (m : ChallengeMap) (id : String)
    (h : id ∉ m.map Prod.fst) : challengesGet m id = none := by
  induction m with
  | nil => rfl
  | cons kv rest ih =>
    simp only [List.map_cons, List.mem_cons, not_or] at h
    have heq : (kv.1 == id) = false := by
      simp only [beq_eq_false_iff_ne]
      exact fun hk => h.1 hk.symm
    simp only [challengesGet, List.find?_cons, heq]
    exact ih h.2

/-- Keys of the swept map are keys of the original map. -/
theorem mem_keys_sweep (m : ChallengeMap) (t : Int) (id : String)
    (h : id ∈ (challengesSweep m t).map Prod.fst) : id ∈ m.map Prod.fst := by
  simp only [challengesSweep] at h
  obtain ⟨kv, hkv, hfst⟩ := List.mem_map.mp h
  exact List.mem_map.mpr ⟨kv, List.mem_of_mem_filter hkv, hfst⟩

/-- An opportunistic sweep at a time more than 60 seconds past a stored
challenge's timestamp removes it (given, as for a JS `Map`, unique keys). -/
theorem challengesGet_sweep_expired (m : ChallengeMap) (id : String) (c : Challenge)
    (t : Int) (hw : (m.map Prod.fst).Nodup) (hc : challengesGet m id = some c)
    (hold : CHALLENGE_TTL < t - c.timestamp) :
    challengesGet (challengesSweep m t) id = none := by
  induction m with
  | nil => simp [challengesGet] at hc
  | cons kv rest ih =>
    simp only [List.map_cons, List.nodup_cons] at hw
    by_cases h : kv.1 = id
    · have heq : (kv.1 == id) = true := by simp [h]
      have hc2 : kv.2 = c := by
        simp only [challengesGet, List.find?_cons, heq] at hc
        simpa using hc
      have hkeep : (!decide (CHALLENGE_TTL < t - kv.2.timestamp)) = false := by
        simp [hc2, hold]
      simp only [challengesSweep, List.filter_cons, hkeep]
      apply challengesGet_none_of_not_mem
      intro hmem
      exact hw.1 (h ▸ mem_keys_sweep rest t id hmem)
    · have heq : (kv.1 == id) = false := by simp [h]
      simp only [challengesGet, List.find?_cons, heq] at hc
      have ih2 := ih hw.2 hc
      simp only [challengesSweep, List.filter_cons]
      by_cases hk : (!decide (CHALLENGE_TTL < t - kv.2.timestamp)) = true
      · simp only [hk, if_true]
        simp only [challengesGet, List.find?_cons, heq]
        exact ih2
      · simp only [Bool.not_eq_true] at hk
        simp only [hk]
        exact ih2

/-- Replacing a different key does not change what an id maps to. -/
theorem challengesGet_mapReplace_ne (m : ChallengeMap) (newId id : String)
    (c' : Challenge) (h : newId ≠ id) :
    challengesGet (m.map (fun kv => if kv.1 == newId then (newId, c') else kv)) id =
      challengesGet m id := by
  induction m with
  | nil => rfl
  | cons kv rest ih =>
    simp only [List.map_cons]
    by_cases hk : kv.1 = newId
    · have hhead : (if kv.1 == newId then (newId, c') else kv) = (newId, c') := by
        simp [hk]
      rw [hhead, challengesGet_cons_of_ne _ _ _ (by simp [h]),
        challengesGet_cons_of_ne _ _ _ (by simp [hk, h])]
      exact ih
    · have hhead : (if kv.1 == newId then (newId, c') else kv) = kv := by simp [hk]
      rw [hhead]
      by_cases hi : kv.1 = id
      · rw [challengesGet_cons_of_eq _ _ _ (by simp [hi]),
          challengesGet_cons_of_eq _ _ _ (by simp [hi])]
      · rw [challengesGet_cons_of_ne _ _ _ (by simp [hi]),
          challengesGet_cons_of_ne _ _ _ (by simp [hi])]
        exact ih

/-- Appending a binding for a different key does not change what an id
maps to. -/
theorem challengesGet_append_ne (m : ChallengeMap) (newId id : String)
    (c' : Challenge) (h : newId ≠ id) :
    challengesGet (m ++ [(newId, c')]) id = challengesGet m id := by
  induction m with
  | nil =>
    rw [List.nil_append, challengesGet_cons_of_ne _ _ _ (by simp [h])]
  | cons kv rest ih =>
    rw [List.cons_append]
    by_cases hi : kv.1 = id
    · rw [challengesGet_cons_of_eq _ _ _ (by simp [hi]),
        challengesGet_cons_of_eq _ _ _ (by simp [hi])]
    · rw [challengesGet_cons_of_ne _ _ _ (by simp [hi]),
        challengesGet_cons_of_ne _ _ _ (by simp [hi])]
      exact ih

/-- `Map.set` under a different key does not change what an id maps to. -/
theorem challengesGet_set_ne (m : ChallengeMap) (newId id : String)
    (c' : Challenge) (h : newId ≠ id) :
    challengesGet (challengesSet m newId c') id = challengesGet m id := by
  unfold challengesSet
  split
  · exact challengesGet_mapReplace_ne m newId id c' h
  · exact challengesGet_append_ne m newId id c' h

/-- `Map.set` keeps the keys of the map unique. -/
theorem challengesSet_keys_nodup (m : ChallengeMap) (newId : String) (c' : Challenge)
    (hw : (m.map Prod.fst).Nodup) :
    ((challengesSet m newId c').map Prod.fst).Nodup := by
  unfold challengesSet
  split
  · have : (m.map (fun kv => if kv.1 == newId then (newId, c') else kv)).map Prod.fst =
        m.map Prod.fst := by
      rw [List.map_map]
      apply List.map_congr_left
      intro kv _
      by_cases hk : kv.1 = newId
      · simp [hk]
      · simp [hk]
    rw [this]
    exact hw
  · next hnone =>
    have hnotmem : newId ∉ m.map Prod.fst := by
      intro hmem
      rw [Option.not_isSome_iff_eq_none] at hnone
      rw [List.find?_eq_none] at hnone
      obtain ⟨kv, hkv, hfst⟩ := List.mem_map.mp hmem
      exact absurd (by simp [hfst]) (hnone kv hkv)
    simp [List.nodup_append, hw, hnotmem]

/-- C3 as amended: a stale challenge is treated as absent only once the
opportunistic sweep has run.  If some `GET /api/challenge` (storing a
fresh id) runs more than 60 seconds after a challenge was stored, that
challenge is removed, and a later verify with its id returns
`{valid:false, reason:'Challenge not found or expired'}`.  Without such an
intervening issue, verify processes the stale challenge normally (see the
counterexample). -/
theorem challenge_expiry_requires_sweep (m : ChallengeMap) (id newId ip : String)
    (c : Challenge) (a b : Int) (op : ChallengeOp) (tIssue tVerify : Int)
    (ans tp et : Option Int)
    (hw : (m.map Prod.fst).Nodup)
    (hc : challengesGet m id = some c)
    (hold : CHALLENGE_TTL < tIssue - c.timestamp)
    (hne : newId ≠ id) :
    challengesGet (issueChallenge m newId a b op tIssue ip).1 id = none ∧
    (verifyChallenge (issueChallenge m newId a b op tIssue ip).1 id ans tp et tVerify).2 =
      challengeNotFoundResponse := by
  have hget1 : challengesGet
      (challengesSet m newId ⟨op.apply a b, tIssue, ip⟩) id = some c := by
    rw [challengesGet_set_ne m newId id _ hne]
    exact hc
  have hkeys1 := challengesSet_keys_nodup m newId ⟨op.apply a b, tIssue, ip⟩ hw
  have hmain : challengesGet (issueChallenge m newId a b op tIssue ip).1 id = none :=
    challengesGet_sweep_expired _ id c tIssue hkeys1 hget1 hold
  exact ⟨hmain, by simp [verifyChallenge, hmain]⟩

theorem challenge_expiry_requires_sweep_witness :
    (([("abc123", ⟨20, 0, "1.2.3.4"⟩)] : ChallengeMap).map Prod.fst).Nodup ∧
    challengesGet [("abc123", ⟨20, 0, "1.2.3.4"⟩)] "abc123" = some ⟨20, 0, "1.2.3.4"⟩ ∧
    CHALLENGE_TTL < (61000 : Int) - (0 : Int) ∧
    ("zzz999" : String) ≠ "abc123" ∧
    (challengesGet
        (issueChallenge [("abc123", ⟨20, 0, "1.2.3.4"⟩)] "zzz999" 2 3 ChallengeOp.mul
          61000 "5.6.7.8").1 "abc123" = none ∧
      (verifyChallenge
          (issueChallenge [("abc123", ⟨20, 0, "1.2.3.4"⟩)] "zzz999" 2 3 ChallengeOp.mul
            61000 "5.6.7.8").1 "abc123" (some 20) (some 0) (some 15) 61500).2 =
        challengeNotFoundResponse) :=
  ⟨by decide, by decide, by decide, by decide,
    challenge_expiry_requires_sweep [("abc123", ⟨20, 0, "1.2.3.4"⟩)] "abc123" "zzz999"
      "5.6.7.8" ⟨20, 0, "1.2.3.4"⟩ 2 3 ChallengeOp.mul 61000 61500
      (some 20) (some 0) (some 15) (by decide) (by decide) (by decide) (by decide)⟩

/-- Settled states stay settled and never deliver under non-track events. -/
theorem visitStep_settled (st : Option Visit) (e : VisitEv)
    (hs : visitSettled st) (he : e.isTrack = false) :
    (visitStep st e).2 = false ∧ visitSettled (visitStep st e).1 := by
  rcases hs with rfl | ⟨v, rfl, hv⟩
  · cases e with
    | track t => simp [VisitEv.isTrack] at he
    | markApi => exact ⟨rfl, Or.inl rfl⟩
    | markComplete => exact ⟨rfl, Or.inl rfl⟩
    | fire => exact ⟨rfl, Or.inl rfl⟩
    | evict t => exact ⟨rfl, Or.inl rfl⟩
  · cases e with
    | track t => simp [VisitEv.isTrack] at he
    | markApi => exact ⟨rfl, Or.inr ⟨_, rfl, hv⟩⟩
    | markComplete => exact ⟨rfl, Or.inr ⟨_, rfl, rfl⟩⟩
    | fire =>
      by_cases hb : v.botApiCalled
      · refine ⟨?_, Or.inr ⟨v, ?_, hv⟩⟩ <;>
          simp [visitStep, visitTimerFire, hb]
      · refine ⟨?_, Or.inr ⟨v, ?_, hv⟩⟩ <;>
          simp [visitStep, visitTimerFire, hb, deliverBotVerdict, hv]
    | evict t =>
      refine ⟨rfl, ?_⟩
      by_cases ho : (60000 : Int) < t - v.timestamp
      · exact Or.inl (by simp [visitStep, visitSweep, ho])
      · exact Or.inr ⟨v, by simp [visitStep, visitSweep, ho], hv⟩

/-- `botApiCalled` states stay that way and never deliver under non-track
events. -/
theorem visitStep_called (st : Option Visit) (e : VisitEv)
    (hc : visitCalled st) (he : e.isTrack = false) :
    (visitStep st e).2 = false ∧ visitCalled (visitStep st e).1 := by
  rcases hc with rfl | ⟨v, rfl, hv⟩
  · cases e with
    | track t => simp [VisitEv.isTrack] at he
    | markApi => exact ⟨rfl, Or.inl rfl⟩
    | markComplete => exact ⟨rfl, Or.inl rfl⟩
    | fire => exact ⟨rfl, Or.inl rfl⟩
    | evict t => exact ⟨rfl, Or.inl rfl⟩
  · cases e with
    | track t => simp [VisitEv.isTrack] at he
    | markApi => exact ⟨rfl, Or.inr ⟨_, rfl, rfl⟩⟩
    | markComplete => exact ⟨rfl, Or.inr ⟨_, rfl, hv⟩⟩
    | fire =>
      refine ⟨?_, Or.inr ⟨v, ?_, hv⟩⟩ <;>
        simp [visitStep, visitTimerFire, hv]
    | evict t =>
      refine ⟨rfl, ?_⟩
      by_cases ho : (60000 : Int) < t - v.timestamp
      · exact Or.inl (by simp [visitStep, visitSweep, ho])
      · exact Or.inr ⟨v, by simp [visitStep, visitSweep, ho], hv⟩

/-- A step that delivers the timeout verdict leaves a settled state. -/
theorem visitStep_settled_of_delivered (st : Option Visit) (e : VisitEv)
    (h : (visitStep st e).2 = true) : visitSettled (visitStep st e).1 := by
  cases e with
  | track t => simp [visitStep] at h
  | markApi => simp [visitStep] at h
  | markComplete => simp [visitStep] at h
  | evict t => simp [visitStep] at h
  | fire =>
    cases st with
    | none => simp [visitStep, visitTimerFire] at h
    | some v =>
      by_cases hb : v.botApiCalled
      · simp [visitStep, visitTimerFire, hb] at h
      · by_cases hcomp : v.completed
        · simp [visitStep, visitTimerFire, hb, deliverBotVerdict, hcomp] at h
        · exact Or.inr ⟨{ v with completed := true, finalVerdict := some (timeoutVerdict timeoutReason) }, by simp [visitStep, visitTimerFire, hb, deliverBotVerdict, hcomp], rfl⟩

/-- No delivery along a track-free trace from a settled state. -/
theorem runVisitEvents_settled (es : List VisitEv) :
    ∀ st : Option Visit, visitSettled st → (∀ e ∈ es, e.isTrack = false) →
      (runVisitEvents st es).2 = 0 := by
  induction es with
  | nil => intro st _ _; rfl
  | cons e es ih =>
    intro st hs hnt
    obtain ⟨hd, hs'⟩ := visitStep_settled st e hs (hnt e (List.mem_cons_self e es))
    have hrest := ih _ hs' (fun e' he' => hnt e' (List.mem_cons_of_mem _ he'))
    simp [runVisitEvents, hd, hrest]

/-- No delivery along a track-free trace once `botApiCalled` holds. -/
theorem runVisitEvents_called (es : List VisitEv) :
    ∀ st : Option Visit, visitCalled st → (∀ e ∈ es, e.isTrack = false) →
      (runVisitEvents st es).2 = 0 := by
  induction es with
  | nil => intro st _ _; rfl
  | cons e es ih =>
    intro st hc hnt
    obtain ⟨hd, hc'⟩ := visitStep_called st e hc (hnt e (List.mem_cons_self e es))
    have hrest := ih _ hc' (fun e' he' => hnt e' (List.mem_cons_of_mem _ he'))
    simp [runVisitEvents, hd, hrest]

/-- At most one delivery along any track-free trace. -/
theorem runVisitEvents_le_one (es : List VisitEv) :
    ∀ st : Option Visit, (∀ e ∈ es, e.isTrack = false) →
      (runVisitEvents st es).2 ≤ 1 := by
  induction es with
  | nil => intro st _; exact Nat.zero_le 1
  | cons e es ih =>
    intro st hnt
    by_cases hd : (visitStep st e).2 = true
    · have hs' := visitStep_settled_of_delivered st e hd
      have hrest := runVisitEvents_settled es _ hs'
        (fun e' he' => hnt e' (List.mem_cons_of_mem _ he'))
      simp [runVisitEvents, hd, hrest]
    · rw [Bool.not_eq_true] at hd
      have hrest := ih (visitStep st e).1
        (fun e' he' => hnt e' (List.mem_cons_of_mem _ he'))
      simp [runVisitEvents, hd]
      omega

theorem markBotApiCalled_called (st : Option Visit) :
    visitCalled (markBotApiCalled st) := by
  cases st with
  | none => exact Or.inl rfl
  | some v => exact Or.inr ⟨_, rfl, rfl⟩

/-- C7: along any trace of non-track events on a freshly opened session,
the frozen bot-on-timeout verdict is delivered at most once (the
`completed` flag guards the second firing), and never after
`markBotApiCalled` ran for the session: every firing after the
`markApi` event delivers nothing. -/
theorem timeout_verdict_once_and_never_after_botApi (t : Int) (es : List VisitEv)
    (hnt : ∀ e ∈ es, e.isTrack = false) :
    (runVisitEvents (some (trackPageVisit t none)) es).2 ≤ 1 ∧
    (∀ pre post, es = pre ++ VisitEv.markApi :: post →
      (runVisitEvents
        (markBotApiCalled (runVisitEvents (some (trackPageVisit t none)) pre).1)
        post).2 = 0) := by
  refine ⟨runVisitEvents_le_one es _ hnt, ?_⟩
  intro pre post heq
  refine runVisitEvents_called post _ (markBotApiCalled_called _) ?_
  intro e he
  exact hnt e (heq ▸ List.mem_append_right pre (List.mem_cons_of_mem _ he))

theorem timeout_verdict_once_and_never_after_botApi_witness :
    (∀ e ∈ ([VisitEv.markApi, VisitEv.fire, VisitEv.fire] : List VisitEv),
      e.isTrack = false) ∧
    ((runVisitEvents (some (trackPageVisit 0 none))
        [VisitEv.markApi, VisitEv.fire, VisitEv.fire]).2 ≤ 1 ∧
      (∀ pre post,
        ([VisitEv.markApi, VisitEv.fire, VisitEv.fire] : List VisitEv) =
          pre ++ VisitEv.markApi :: post →
        (runVisitEvents
          (markBotApiCalled
            (runVisitEvents (some (trackPageVisit 0 none)) pre).1)
          post).2 = 0)) :=
  ⟨by decide,
    timeout_verdict_once_and_never_after_botApi 0
      [VisitEv.markApi, VisitEv.fire, VisitEv.fire] (by decide)⟩

/-- C6 counterexample: `httpie` is in the canonical Header-Evaluator
pattern list and occurs in the request User-Agent, yet the Signal
Evaluator's `botUserAgent` signal stays undetected — its own pattern list
stops at `headlesschrome` and has no `httpie`. -/
theorem sig_botUserAgent_httpie_not_flagged :
    "httpie" ∈ headerBotPatterns ∧
    "httpie" ∉ sigBotPatterns ∧
    jsIncludes (jsToLower (jstr (some "httpie/3.2.2"))) "httpie" = true ∧
    ((analyzeBotSignals {} { userAgent := some "httpie/3.2.2" }).allSignals.filter
        (fun s => s.name == "botUserAgent")) =
      [{ name := "botUserAgent", detected := false, weight := 25,
         reason := "User-Agent appears legitimate", category := some "headers" }] := by
  exact ⟨by decide, by decide, by decide, by decide⟩

/-- The `botUserAgent` rule application of the Signal Evaluator is always
in its rule list. -/
theorem sig_botUA_rule_mem (bd : Bundle) (headers : Headers) :
    ({ name := "botUserAgent",
       detected := (sigBotPatterns.find?
         (fun pat => jsIncludes (jsToLower (jstr headers.userAgent)) pat)).isSome,
       weight := 25,
       passReason := "User-Agent appears legitimate",
       failReason := "Bot-like User-Agent pattern: " ++ showOptStr (sigBotPatterns.find?
         (fun pat => jsIncludes (jsToLower (jstr headers.userAgent)) pat)),
       category := some "headers" } : RuleApp) ∈ sigRuleApps bd headers := by
  have hmem :
      ({ name := "botUserAgent",
         detected := (sigBotPatterns.find?
           (fun pat => jsIncludes (jsToLower (jstr headers.userAgent)) pat)).isSome,
         weight := 25,
         passReason := "User-Agent appears legitimate",
         failReason := "Bot-like User-Agent pattern: " ++ showOptStr (sigBotPatterns.find?
           (fun pat => jsIncludes (jsToLower (jstr headers.userAgent)) pat)),
         category := some "headers" } : RuleApp) ∈ sigHeaderSignalRules bd headers := by
    unfold sigHeaderSignalRules
    apply List.mem_append_left
    apply List.mem_append_left
    exact List.mem_cons_of_mem _ (List.mem_cons_of_mem _ (List.mem_cons_self _ _))
  unfold sigRuleApps
  exact List.mem_append_left _ (List.mem_append_left _ (List.mem_append_right _ hmem))

set_option maxHeartbeats 1000000 in
/-- C6 as amended: for every request-header User-Agent that
case-insensitively contains a pattern of the Signal Evaluator's own
bot-pattern list (`sigBotPatterns`, which omits `httpie`, `postman`,
`insomnia`, `rest-client`, `okhttp` and `apache-http`), the Signal
Evaluator detects `botUserAgent` with weight 25 and preserves the
first-match identifier in the reason string. -/
theorem sig_botUserAgent_first_match (bd : Bundle) (headers : Headers) (p : String)
    (hp : p ∈ sigBotPatterns)
    (hin : jsIncludes (jsToLower (jstr headers.userAgent)) p = true) :
    ∃ q, sigBotPatterns.find?
        (fun pat => jsIncludes (jsToLower (jstr headers.userAgent)) pat) = some q ∧
      { name := "botUserAgent", detected := true, weight := 25,
        reason := "Bot-like User-Agent pattern: " ++ q,
        category := some "headers" } ∈ (analyzeBotSignals bd headers).signals := by
  have hfind : (sigBotPatterns.find?
      (fun pat => jsIncludes (jsToLower (jstr headers.userAgent)) pat)).isSome :=
    List.find?_isSome.mpr ⟨p, hp, hin⟩
  obtain ⟨q, hq⟩ := Option.isSome_iff_exists.mp hfind
  refine ⟨q, hq, ?_⟩
  have hr := sig_botUA_rule_mem bd headers
  rw [hq] at hr
  simp only [Option.isSome_some, showOptStr] at hr
  have hsig :
      ({ name := "botUserAgent", detected := true, weight := 25,
         reason := "Bot-like User-Agent pattern: " ++ q,
         category := some "headers" } : Signal) ∈ (sigRuleApps bd headers).map toSignal :=
    List.mem_map_of_mem toSignal hr
  show _ ∈ ((sigRuleApps bd headers).foldl addSignal ([], 0)).1.filter
    (fun s => s.detected)
  rw [foldl_addSignal_fst]
  refine List.mem_filter.mpr ⟨?_, rfl⟩
  simpa using hsig

theorem sig_botUserAgent_first_match_witness :
    ("curl" ∈ sigBotPatterns ∧
      jsIncludes (jsToLower (jstr ({ userAgent := some "curl/8.1.2" } : Headers).userAgent))
        "curl" = true) ∧
    (∃ q, sigBotPatterns.find?
        (fun pat => jsIncludes
          (jsToLower (jstr ({ userAgent := some "curl/8.1.2" } : Headers).userAgent))
          pat) = some q ∧
      { name := "botUserAgent", detected := true, weight := 25,
        reason := "Bot-like User-Agent pattern: " ++ q,
        category := some "headers" } ∈
          (analyzeBotSignals {} { userAgent := some "curl/8.1.2" }).signals) :=
  ⟨⟨by decide, by decide⟩,
    sig_botUserAgent_first_match {} { userAgent := some "curl/8.1.2" } "curl"
      (by decide) (by decide)⟩

end Hfp
